import Mathlib

/-!
# Emma-Front: conversation state, session, transcription and AR placement

A shallow embedding of `src/src/hooks/useChat.jsx` (`getBackendUrl`, the
initialiser of the session identifier, and the `ChatProvider` component: `chat`,
`transcribeAudio`, `onMessagePlayed`, `loadHistory`, the current-message effect),
of `sendMessage`, the handler `recorder.onstop`, `startRecording`, `stopRecording`
and the cleanup effect in `src/src/components/UI.jsx`, and of the placement state
of `src/src/components/Experience.jsx`.

JavaScript values that come out of `response.json()` are modelled by `JSVal`.
Numbers are kept as integers: the code never computes with them, it only tests
their truthiness and interpolates them into a text.
An asynchronous function is split at its `await fetch(...)`: the part that runs
before the request is sent, and the part that runs once the request has settled
with a `FetchOutcome`.
-/

namespace EmmaFront

/-! ## JavaScript values -/

/-- A JavaScript value as produced by `JSON.parse`, together with `undefined`.
An object is the list of its own properties. -/
inductive JSVal where
  | undefined : JSVal
  | null : JSVal
  | bool (b : Bool) : JSVal
  | num (n : Int) : JSVal
  | str (s : String) : JSVal
  | arr (items : List JSVal) : JSVal
  | obj (fields : List (String × JSVal)) : JSVal
  deriving Inhabited

/-- The exceptions the modelled code can meet. -/
inductive JSError where
  /-- `fetch` rejected: the request could not be carried out. -/
  | network : JSError
  /-- `response.json()` rejected: the body is not JSON. -/
  | syntaxError : JSError
  /-- A property was read from `null` or `undefined`, or a value has no text form. -/
  | typeError : JSError
  deriving DecidableEq, Repr

namespace JSVal

/-- JavaScript truthiness: the value of `!!v`. -/
def truthy : JSVal → Bool
  | undefined => false
  | null => false
  | bool b => b
  | num n => n != 0
  | str s => s != ""
  | arr _ => true
  | obj _ => true

/-- The expression `a || b` on two already evaluated operands. -/
def or (a b : JSVal) : JSVal :=
  if a.truthy then a else b

/-- Own property lookup in the property list of an object. -/
def lookup (key : String) : List (String × JSVal) → JSVal
  | [] => undefined
  | (k, v) :: rest => if k = key then v else lookup key rest

/-- The expression `v.key`, for a key that no prototype defines (`messages`,
`history`, `message`, `error`, `text`): reading from `null` or `undefined`
throws a `TypeError`, an object gives its own property, anything else gives
`undefined`. -/
def getProp (v : JSVal) (key : String) : Except JSError JSVal :=
  match v with
  | undefined => .error .typeError
  | null => .error .typeError
  | obj fields => .ok (lookup key fields)
  | _ => .ok undefined

/-- The value of `Array.isArray(v)`. -/
def isArray : JSVal → Bool
  | arr _ => true
  | _ => false

mutual
/-- The text a template literal interpolates for a value (`ToString`). An object
parsed from JSON has the text `[object Object]` unless it has an own property
`toString`, which is then not callable and makes the conversion throw. -/
def toStr : JSVal → Except JSError String
  | undefined => .ok "undefined"
  | null => .ok "null"
  | bool b => .ok (if b then "true" else "false")
  | num n => .ok (toString n)
  | str s => .ok s
  | arr items => joinStr items
  | obj fields => objectStr fields
/-- The text of `Array.prototype.join` with the separator `,`: `null` and
`undefined` elements give the empty text. -/
def joinStr : List JSVal → Except JSError String
  | [] => .ok ""
  | [v] => elemStr v
  | v :: w :: rest =>
    match elemStr v, joinStr (w :: rest) with
    | .ok a, .ok b => .ok (a ++ "," ++ b)
    | .error e, _ => .error e
    | _, .error e => .error e
/-- One element inside `join`. -/
def elemStr : JSVal → Except JSError String
  | undefined => .ok ""
  | null => .ok ""
  | bool b => .ok (if b then "true" else "false")
  | num n => .ok (toString n)
  | str s => .ok s
  | arr items => joinStr items
  | obj fields => objectStr fields
/-- The text of an object, by its own properties. -/
def objectStr : List (String × JSVal) → Except JSError String
  | [] => .ok "[object Object]"
  | (k, _) :: rest => if k = "toString" then .error .typeError else objectStr rest
end

end JSVal

/-! ## The backend, as seen through `fetch` -/

/-- What `response.json()` gives: it rejects on a body that is not JSON, else it
resolves to the parsed value. -/
inductive Body where
  | invalid : Body
  | json (v : JSVal) : Body
  deriving Inhabited

/-- A response the backend produced. -/
structure Response where
  status : Nat
  statusText : String
  body : Body
  deriving Inhabited

/-- The flag `response.ok`: the status is in the range 200 to 299. -/
def Response.ok (r : Response) : Bool :=
  decide (200 ≤ r.status) && decide (r.status ≤ 299)

/-- How an `await fetch(...)` settles: the promise rejects (transport failure)
or resolves to a response. -/
inductive FetchOutcome where
  | failed : FetchOutcome
  | response (r : Response) : FetchOutcome
  deriving Inhabited

/-- A request handed to `fetch`. The base URL is the constant `backendUrl`. -/
inductive Request where
  /-- `POST /chat` with the body `{ message, sessionId }`. -/
  | chat (message : String) (sessionId : String) : Request
  /-- `GET /history/:sessionId`. -/
  | history (sessionId : String) : Request
  /-- `POST /transcribe` with the body `{ audioBase64, sessionId }`; `JSON.stringify`
  leaves out an `audioBase64` that is `undefined`, here `none`. -/
  | transcribe (audioBase64 : Option String) (sessionId : String) : Request
  deriving DecidableEq, Repr

/-! ## State -/

/-- The state of `ChatProvider` (its `useState` cells, lines 25 and 112-117)
together with what the component does to the outside: the requests it has
handed to `fetch`, the `alert` texts shown, the console lines written, and
the global flag `window.audioContextInitialized`. -/
structure World where
  /-- The constant `sessionId`. -/
  sessionId : String
  /-- The message queue. -/
  messages : List JSVal
  /-- The current message. -/
  message : JSVal
  loading : Bool
  cameraZoomed : Bool
  /-- The history mirror. -/
  conversationHistory : JSVal
  showHistory : Bool
  /-- Whether `messages` holds a new array since the current-message effect last
  ran, so that React runs the effect again after this update. -/
  messagesChanged : Bool
  /-- Every request handed to `fetch`, oldest first. -/
  requests : List Request
  /-- The number of calls of `chat` that have not completed. -/
  inFlight : Nat
  /-- The number of calls of `loadHistory` that have not completed. -/
  historyInFlight : Nat
  /-- The texts shown with `alert`, oldest first. -/
  alerts : List String
  /-- The first argument of every `console.log`, `console.warn` and
  `console.error`, oldest first. -/
  console : List String
  audioContextInitialized : Bool

namespace World

/-- The call `alert(text)`. -/
def alert (w : World) (text : String) : World :=
  { w with alerts := w.alerts ++ [text] }

/-- A call of `console.log`, `console.warn` or `console.error`. -/
def log (w : World) (line : String) : World :=
  { w with console := w.console ++ [line] }

/-- The call `setLoading(b)`. -/
def setLoading (w : World) (b : Bool) : World :=
  { w with loading := b }

/-- The call `setConversationHistory(h)`. -/
def setConversationHistory (w : World) (h : JSVal) : World :=
  { w with conversationHistory := h }

/-- The call `setMessages` with a newly built array. -/
def setMessages (w : World) (ms : List JSVal) : World :=
  { w with messages := ms, messagesChanged := true }

/-- The call `fetch(request)`. -/
def fetch (w : World) (r : Request) : World :=
  { w with requests := w.requests ++ [r] }

end World

/-- The state of a `ChatProvider` at its first render, before any effect ran:
the initial values of the `useState` cells. -/
def initialWorld (sessionId : String) : World :=
  { sessionId := sessionId
    messages := []
    message := .undefined
    loading := false
    cameraZoomed := true
    conversationHistory := .arr []
    showHistory := false
    messagesChanged := true
    requests := []
    inFlight := 0
    historyInFlight := 0
    alerts := []
    console := []
    audioContextInitialized := false }

/-! ## `try` / `catch` / `finally` -/

/-- A block of statements: it changes the world and completes normally
(`.ok`, which also stands for `return`) or throws. -/
abbrev Block := World → World × Except JSError Unit

/-- The statement `try body catch (error) handler finally finalizer`: the handler
runs when the body throws, the finalizer runs in every case, and the statement
throws what the finalizer throws, else what the handler throws. -/
def tryCatchFinally (body : Block) (handler : JSError → Block) (finalizer : Block) : Block :=
  fun w =>
    let afterBody := body w
    let afterCatch :=
      match afterBody.2 with
      | .ok () => afterBody
      | .error e => handler e afterBody.1
    let afterFinally := finalizer afterCatch.1
    match afterFinally.2 with
    | .ok () => (afterFinally.1, afterCatch.2)
    | .error e => (afterFinally.1, .error e)

/-- The statement `try body catch (error) handler`. -/
def tryCatch (body : Block) (handler : JSError → Block) : Block :=
  fun w =>
    let afterBody := body w
    match afterBody.2 with
    | .ok () => afterBody
    | .error e => handler e afterBody.1

/-! ## `chat` (useChat.jsx, lines 33-72) -/

/-- The value `errorData.message || errorData.error || "Error al procesar el mensaje"`
of line 47; `errorData.error` is read only when `errorData.message` is falsy. -/
def errorReason (errorData : JSVal) : Except JSError JSVal :=
  match errorData.getProp "message" with
  | .error e => .error e
  | .ok m =>
    if m.truthy then .ok m
    else
      match errorData.getProp "error" with
      | .error e => .error e
      | .ok r => .ok (r.or (.str "Error al procesar el mensaje"))

/-- The value `errorData` of line 45, `await data.json().catch(...)`: the parsed
body, or the stand-in object with the `error` text `Error desconocido` when the
body is not JSON. -/
def errorData (body : Body) : JSVal :=
  match body with
  | .invalid => JSVal.obj [("error", .str "Error desconocido")]
  | .json v => v

/-- What `chat` does before its `await fetch(...)`: `setLoading(true)` and the
request `POST /chat` with the message and the session identifier (lines 34-42). -/
def chatStart (w : World) (message : String) : World :=
  let w1 := (w.setLoading true).fetch (.chat message w.sessionId)
  { w1 with inFlight := w1.inFlight + 1 }

/-- The rest of the `try` block of `chat`, from the point where the request has
settled (lines 36-65). -/
def chatTry (o : FetchOutcome) : Block := fun w =>
  match o with
  | .failed => (w, .error .network)
  | .response data =>
    if data.ok = false then
      let w1 := w.log "Error del servidor:"
      match errorReason (errorData data.body) with
      | .error e => (w1, .error e)
      | .ok reason =>
        match reason.toStr with
        | .error e => (w1, .error e)
        | .ok text => ((w1.alert ("Error: " ++ text)).setLoading false, .ok ())
    else
      -- line 52: `await data.json()`
      match data.body with
      | .invalid => (w, .error .syntaxError)
      | .json response =>
        match response.getProp "messages" with
        | .error e => (w, .error e)
        | .ok m =>
          let resp := m.or (.arr [])
          match response.getProp "history" with
          | .error e => (w, .error e)
          | .ok history =>
            let w1 := if history.truthy then w.setConversationHistory history else w
            match resp with
            | .arr items => (w1.setMessages (w1.messages ++ items), .ok ())
            | _ =>
              ((w1.log "La respuesta no contiene un array de mensajes:").alert
                "Error: La respuesta del servidor no es válida", .ok ())

/-- The `catch` block of `chat` (lines 66-68). -/
def chatCatch (_error : JSError) : Block := fun w =>
  ((w.log "Error al enviar mensaje:").alert
    "Error al conectar con el servidor. Verifica que el backend esté corriendo.", .ok ())

/-- The `finally` block of `chat` (lines 69-71). -/
def chatFinally : Block := fun w =>
  (w.setLoading false, .ok ())

/-- What `chat` does once its request has settled with the outcome `o`, up to
the completion of the call: the world it leaves, and whether the call completes
normally or throws to its caller. -/
def chatFinish (w : World) (o : FetchOutcome) : World × Except JSError Unit :=
  let r := tryCatchFinally (chatTry o) chatCatch chatFinally w
  ({ r.1 with inFlight := r.1.inFlight - 1 }, r.2)

/-- A whole call `chat(message)` whose request settles with the outcome `o`,
nothing else happening in between. -/
def chat (w : World) (message : String) (o : FetchOutcome) : World × Except JSError Unit :=
  chatFinish (chatStart w message) o

/-! ## `onMessagePlayed`, `loadHistory` and the current-message effect -/

/-- The function `onMessagePlayed` (lines 119-128): the updater handed to
`setMessages` returns `messages.slice(1)`, a new array, on a non-empty queue
and the same array on the empty one. -/
def onMessagePlayed (w : World) : World :=
  match w.messages with
  | _ :: remaining =>
    (w.log ("Mensaje procesado. Mensajes restantes: " ++ toString remaining.length)).setMessages
      remaining
  | [] => w

/-- The `try` block of `loadHistory`, from the point where the request has
settled (lines 132-136). -/
def loadHistoryTry (o : FetchOutcome) : Block := fun w =>
  match o with
  | .failed => (w, .error .network)
  | .response response =>
    if response.ok then
      match response.body with
      | .invalid => (w, .error .syntaxError)
      | .json data =>
        match data.getProp "history" with
        | .error e => (w, .error e)
        | .ok history => (w.setConversationHistory (history.or (.arr [])), .ok ())
    else (w, .ok ())

/-- The `catch` block of `loadHistory` (lines 137-139). -/
def loadHistoryCatch (_error : JSError) : Block := fun w =>
  (w.log "Error cargando historial:", .ok ())

/-- What `loadHistory` does before its `await fetch(...)`: the request
`GET /history/:sessionId` (line 132). -/
def loadHistoryStart (w : World) : World :=
  let w1 := w.fetch (.history w.sessionId)
  { w1 with historyInFlight := w1.historyInFlight + 1 }

/-- What `loadHistory` does once its request has settled with the outcome `o`,
up to the completion of the call. -/
def loadHistoryFinish (w : World) (o : FetchOutcome) : World × Except JSError Unit :=
  let r := tryCatch (loadHistoryTry o) loadHistoryCatch w
  ({ r.1 with historyInFlight := r.1.historyInFlight - 1 }, r.2)

/-- A whole call `loadHistory()` whose request settles with the outcome `o`,
nothing else happening in between (lines 130-140). -/
def loadHistory (w : World) (o : FetchOutcome) : World × Except JSError Unit :=
  loadHistoryFinish (loadHistoryStart w) o

/-- The body of the effect on `[messages]` (lines 142-150). -/
def messageEffect (w : World) : World :=
  match w.messages with
  | nextMessage :: _ =>
    { w.log ("Actualizando mensaje actual: " ++ toString w.messages.length ++ " mensajes en cola") with
      message := nextMessage }
  | [] => { w with message := .null }

/-- The effects React runs after an update: the current-message effect runs when
its dependency `messages` is a new array, and at the first render. -/
def flushEffects (w : World) : World :=
  if w.messagesChanged then messageEffect { w with messagesChanged := false } else w

/-- The state of a mounted `ChatProvider`: the first render followed by its two
effects in their order, the current-message effect (lines 142-150) and the call
of `loadHistory` (lines 153-155), whose request is then in flight. -/
def mounted (sessionId : String) : World :=
  loadHistoryStart (flushEffects (initialWorld sessionId))

/-! ## `sendMessage` (UI.jsx, lines 45-84) -/

/-- The function `initializeAudioOnFirstInteraction` (UI.jsx, lines 45-71), as far
as the page state goes: it raises the global flag once. -/
def initializeAudioOnFirstInteraction (w : World) : World :=
  if w.audioContextInitialized = false then { w with audioContextInitialized := true } else w

/-- What the `sendMessage(text)` of a render does before the `await` inside
`chat` (UI.jsx, lines 73-79). The function tests the `loading` and `message` of
the render that created it, given here as `loading` and `message`; `chat` and
`initializeAudioOnFirstInteraction` work on the current state `w`. A text is
truthy when it is not empty. What follows the `await` (lines 80-82) only empties
the input field, which is no part of this state. -/
def sendMessage (loading : Bool) (message : JSVal) (w : World) (text : String) : World :=
  if loading = false ∧ message.truthy = false ∧ text ≠ "" then
    chatStart (initializeAudioOnFirstInteraction w) text
  else w

/-- The function `handleSend` (UI.jsx, lines 86-91) on the text of the input
field: the handlers of the send button and of the Enter key are those of the
current render, so the `sendMessage` they call tests the current `loading` and
`message`. -/
def handleSend (w : World) (text : String) : World :=
  if text ≠ "" then sendMessage w.loading w.message w text else w

/-! ## Runs of the chat component -/

/-- What can happen to a mounted chat component. -/
inductive Event where
  /-- The current render calls its `sendMessage(text)`, as `handleSend` does. -/
  | sendMessage (text : String) : Event
  /-- The handler `recorder.onstop` calls `sendMessage(text)` (UI.jsx, line 138):
  the function is the one of the render in which the recording was started, and
  `loading` and `message` are the ones of that render. -/
  | recorderSendMessage (loading : Bool) (message : JSVal) (text : String) : Event
  /-- Some consumer of the context calls the provider's `chat(text)` directly. -/
  | chat (text : String) : Event
  /-- The request of a call of `chat` in flight settles, and that call runs to
  its end. -/
  | chatSettled (o : FetchOutcome) : Event
  /-- The presentation layer calls `onMessagePlayed()`. -/
  | onMessagePlayed : Event
  /-- Some consumer of the context calls `loadHistory()`. -/
  | loadHistory : Event
  /-- The request of a call of `loadHistory` in flight settles, and that call
  runs to its end. -/
  | historySettled (o : FetchOutcome) : Event

/-- Whether the event reaches `chat` without the test of the current `loading`
and `message`: a direct call of the provider's `chat`, or the `sendMessage` of
an earlier render that `recorder.onstop` calls. -/
def Event.unguarded : Event → Bool
  | .chat _ => true
  | .recorderSendMessage _ _ _ => true
  | _ => false

/-- One event, followed by the effects of the render it causes. A request that
settles belongs to a call in flight: the events `chatSettled` and
`historySettled` do nothing when there is none. -/
def step (w : World) : Event → World
  | .sendMessage text => flushEffects (handleSend w text)
  | .recorderSendMessage loading message text =>
    flushEffects (sendMessage loading message w text)
  | .chat text => flushEffects (chatStart w text)
  | .chatSettled o => if w.inFlight = 0 then w else flushEffects (chatFinish w o).1
  | .onMessagePlayed => flushEffects (onMessagePlayed w)
  | .loadHistory => flushEffects (loadHistoryStart w)
  | .historySettled o =>
    if w.historyInFlight = 0 then w else flushEffects (loadHistoryFinish w o).1

/-- A run: the events in order. -/
def run (w : World) (events : List Event) : World :=
  events.foldl step w

/-! ## The session identifier (useChat.jsx, lines 25-31) -/

/-- An exception raised by the browser storage: access denied, or no room. -/
inductive StorageError where
  | security : StorageError
  | quotaExceeded : StorageError
  deriving DecidableEq, Repr

/-- The browser `localStorage`: its entries, oldest first, and whether reading
and writing work or raise. -/
structure Storage where
  entries : List (String × String)
  readable : Bool
  writable : Bool
  deriving DecidableEq, Repr

/-- The value under a key in a list of entries. -/
def findEntry (key : String) : List (String × String) → Option String
  | [] => none
  | (k, v) :: rest => if k = key then some v else findEntry key rest

/-- The entries after a value is stored under a key: an existing entry takes the
value in place, a new one goes last. -/
def putEntry (key value : String) : List (String × String) → List (String × String)
  | [] => [(key, value)]
  | (k, v) :: rest => if k = key then (k, value) :: rest else (k, v) :: putEntry key value rest

/-- The call `localStorage.getItem(key)`: `none` stands for `null`. -/
def Storage.getItem (s : Storage) (key : String) : Except StorageError (Option String) :=
  if s.readable then .ok (findEntry key s.entries) else .error .security

/-- The call `localStorage.setItem(key, value)`. -/
def Storage.setItem (s : Storage) (key value : String) : Except StorageError Storage :=
  if s.writable then .ok { s with entries := putEntry key value s.entries }
  else .error .quotaExceeded

/-- The identifier of line 28, from the value `now` of `Date.now()` and the text
`suffix` of `Math.random().toString(36).substr(2, 9)`. -/
def newSessionId (now : Nat) (suffix : String) : String :=
  "session_" ++ toString now ++ "_" ++ suffix

/-- Lines 28-30: a new identifier is made, stored under `chatSessionId` and
returned. -/
def createSessionId (s : Storage) (now : Nat) (suffix : String) :
    Except StorageError (String × Storage) :=
  match s.setItem "chatSessionId" (newSessionId now suffix) with
  | .error e => .error e
  | .ok s1 => .ok (newSessionId now suffix, s1)

/-- The initialiser of the `sessionId` cell (lines 25-31): the identifier it
returns and the storage it leaves, or the exception it lets through. The test
`if (stored)` holds of a stored text that is not empty. -/
def sessionIdInit (s : Storage) (now : Nat) (suffix : String) :
    Except StorageError (String × Storage) :=
  match s.getItem "chatSessionId" with
  | .error e => .error e
  | .ok (some stored) => if stored ≠ "" then .ok (stored, s) else createSessionId s now suffix
  | .ok none => createSessionId s now suffix

/-! ## The backend address (useChat.jsx, lines 3-19) -/

/-- The value of `haystack.includes(needle)`. -/
def includes (haystack needle : String) : Bool :=
  decide (needle.data <:+: haystack.data)

/-- Lines 10-16 of `getBackendUrl`: the production server when there is a
`window` whose host name contains `mdtch.mx`, else the local one. -/
def hostBackendUrl (hostname : Option String) : String :=
  match hostname with
  | some host =>
    if includes host "mdtch.mx" then "https://demo-ar-back.mdtch.mx"
    else "http://localhost:3000"
  | none => "http://localhost:3000"

/-- The function `getBackendUrl`, on the value of `import.meta.env.VITE_API_URL`
(`none` when it is not defined) and on `window.location.hostname` (`none` when
there is no `window`). A text is truthy when it is not empty. -/
def getBackendUrl (viteApiUrl : Option String) (hostname : Option String) : String :=
  match viteApiUrl with
  | some url => if url ≠ "" then url else hostBackendUrl hostname
  | none => hostBackendUrl hostname

/-! ## `transcribeAudio` (useChat.jsx, lines 74-110) -/

/-- What a `throw` or a rejected promise carries in `transcribeAudio` and in the
handler of the recorder. -/
inductive Thrown where
  /-- The `error` event of the `FileReader`, the rejection of line 83; it has no
  `message`. -/
  | readError : Thrown
  /-- An error of the platform: a rejection of `fetch` or of `response.json()`,
  or a `TypeError`. -/
  | native (e : JSError) : Thrown
  /-- The object `new Error(message)` of line 100. -/
  | error (message : String) : Thrown

/-- How `reader.readAsDataURL(audioBlob)` ends: with the `error` event, or with
`reader.result` holding the data URL. -/
inductive ReadOutcome where
  | failed : ReadOutcome
  | loaded (result : String) : ReadOutcome

/-- A recorded audio blob: its size, and what reading it gives. -/
structure AudioBlob where
  size : Nat
  read : ReadOutcome

/-- The characters between the first comma and the next one, if there is a comma. -/
def afterComma : List Char → Option (List Char)
  | [] => none
  | c :: rest => if c = ',' then some (rest.takeWhile (fun d => d != ',')) else afterComma rest

/-- The value `reader.result.split(',')[1]` of line 80; `none` stands for
`undefined`. -/
def base64String (result : String) : Option String :=
  (afterComma result.data).map String.mk

/-- The `try` block of `transcribeAudio` (lines 76-105): the world it leaves, and
the text it returns or what it throws. -/
def transcribeTry (blob : AudioBlob) (o : FetchOutcome) (w : World) :
    World × Except Thrown JSVal :=
  match blob.read with
  | .failed => (w, .error .readError)
  | .loaded result =>
    let w1 := w.log ("Enviando audio para transcripción, tamaño: " ++ toString blob.size ++ " bytes")
    let w2 := w1.fetch (.transcribe (base64String result) w.sessionId)
    match o with
    | .failed => (w2, .error (.native .network))
    | .response response =>
      if response.ok = false then
        let w3 := w2.log "Error del servidor en transcripción:"
        -- line 100: `new Error(errorData.error || ...)`, whose message is the text
        -- of its argument
        match (errorData response.body).getProp "error" with
        | .error e => (w3, .error (.native e))
        | .ok reason =>
          if reason.truthy then
            match reason.toStr with
            | .error e => (w3, .error (.native e))
            | .ok text => (w3, .error (.error text))
          else
            (w3, .error (.error
              ("Error " ++ toString response.status ++ ": " ++ response.statusText)))
      else
        match response.body with
        | .invalid => (w2, .error (.native .syntaxError))
        | .json data =>
          match data.getProp "text" with
          | .error e => (w2, .error (.native e))
          | .ok text => (w2.log "Transcripción recibida:", .ok text)

/-- A whole call `transcribeAudio(audioBlob)` whose request settles with the
outcome `o`: the `catch` block (lines 106-109) writes a console line and throws
the same value again. The call reads and writes no state of the provider but
the constant `sessionId`. -/
def transcribeAudio (w : World) (blob : AudioBlob) (o : FetchOutcome) :
    World × Except Thrown JSVal :=
  match transcribeTry blob o w with
  | (w1, .ok text) => (w1, .ok text)
  | (w1, .error error) => (w1.log "Error transcribiendo audio:", .error error)

/-! ## The handler `recorder.onstop` (UI.jsx, lines 118-149) -/

/-- The code points that `String.prototype.trim` removes: the white space and
the line terminators of ECMAScript. -/
def isJSWhitespace (c : Char) : Bool :=
  c.val.toNat ∈ [0x09, 0x0A, 0x0B, 0x0C, 0x0D, 0x20, 0xA0, 0x1680, 0x2028, 0x2029, 0x202F,
    0x205F, 0x3000, 0xFEFF] || (decide (0x2000 ≤ c.val.toNat) && decide (c.val.toNat ≤ 0x200A))

/-- The value of `text.trim()`. -/
def jsTrim (text : String) : String :=
  String.mk ((text.data.dropWhile isJSWhitespace).reverse.dropWhile isJSWhitespace).reverse

/-- The state of the `UI` component next to the chat provider it reads: the
value of the text field (`none` when `input.current` is not set, as when the
component is hidden), its three `useState` cells for the recording, and the
number of times the tracks of the recorded stream have been stopped. -/
structure UI where
  world : World
  input : Option String
  isRecording : Bool
  /-- Whether `mediaRecorder` holds a recorder. -/
  mediaRecorder : Bool
  /-- Whether `audioStream` holds a stream. -/
  audioStream : Bool
  trackStops : Nat

/-- The state with another state of the chat provider. -/
def UI.setWorld (ui : UI) (w : World) : UI :=
  { ui with world := w }

/-- The `message` of a thrown value, `undefined` (here `none`) for the event of
the `FileReader`; the message of an error of the platform is given by
`platformMessage`. -/
def Thrown.message (platformMessage : JSError → String) : Thrown → Option String
  | .readError => none
  | .native e => some (platformMessage e)
  | .error message => some message

/-- The `try` block of the handler from the point where `transcribeAudio` has
returned `transcribedText` (lines 135-143). The method `trim` exists on texts
only: calling it on another truthy value throws a `TypeError`. The handler
calls the `sendMessage` of the render in which the recording was started. -/
def onstopTranscribed (loading : Bool) (message : JSVal) (ui : UI) (transcribedText : JSVal) :
    UI × Except Thrown Unit :=
  let blank :=
    (ui.setWorld ((ui.world.log "La transcripción está vacía").alert
      "No se pudo transcribir el audio. Intenta hablar más claro o más cerca del micrófono."),
      Except.ok ())
  if transcribedText.truthy then
    match transcribedText with
    | .str text =>
      if jsTrim text ≠ "" then
        match ui.input with
        | some _ =>
          ({ ui with input := some text }.setWorld
            (sendMessage loading message ui.world text), .ok ())
        | none => (ui, .ok ())
      else blank
    | _ => (ui, .error (.native .typeError))
  else blank

/-- The `catch` block of the handler (lines 144-148). -/
def onstopCatch (platformMessage : JSError → String) (error : Thrown) (ui : UI) : UI :=
  let errorMessage :=
    match error.message platformMessage with
    | some text => if text ≠ "" then text else "Error al transcribir el audio"
    | none => "Error al transcribir el audio"
  ui.setWorld ((ui.world.log "Error:").alert
    ("Error: " ++ errorMessage ++
      ". Verifica que el backend esté corriendo y que tengas conexión a internet."))

/-- The handler `recorder.onstop` of a recording whose blob is `blob` and whose
transcription request settles with the outcome `o` (lines 118-149): the tracks
of the stream are stopped, an empty blob ends the handler, else the audio is
transcribed and the text handled. -/
def recorderOnstop (loading : Bool) (message : JSVal) (platformMessage : JSError → String)
    (ui : UI) (blob : AudioBlob) (o : FetchOutcome) : UI :=
  let ui1 := { ui with trackStops := ui.trackStops + 1, audioStream := false }
  if blob.size = 0 then
    ui1.setWorld (ui1.world.log "El audio grabado está vacío")
  else
    let w1 := ui1.world.log ("Audio grabado, tamaño: " ++ toString blob.size ++ " bytes")
    match transcribeAudio w1 blob o with
    | (w2, .error error) => onstopCatch platformMessage error (ui1.setWorld w2)
    | (w2, .ok transcribedText) =>
      match onstopTranscribed loading message (ui1.setWorld w2) transcribedText with
      | (ui2, .ok ()) => ui2
      | (ui2, .error error) => onstopCatch platformMessage error ui2

/-- A transcript that is absent, empty or made of white space only: a falsy
value, or a text all of whose characters `trim` removes. -/
def blankTranscript : JSVal → Bool
  | .str text => text.data.all isJSWhitespace
  | v => !v.truthy

/-! ## The placement of the avatar in AR (Experience.jsx, App.jsx) -/

/-- A position `[x, y, z]`. The code stores and copies coordinates and never
computes with them; they are kept as integers. -/
structure Vec3 where
  x : Int
  y : Int
  z : Int
  deriving DecidableEq, Repr

/-- The position `[0, 0, -1]`, in front of the viewer. -/
def defaultPosition : Vec3 := ⟨0, 0, -1⟩

/-- The state of an `Experience` component: its prop `arMode` and its three
`useState` cells (Experience.jsx, lines 58-64). -/
structure Placement where
  arMode : Bool
  /-- The committed position. -/
  avatarPosition : Vec3
  avatarPlaced : Bool
  /-- The tracking position. -/
  tempPosition : Vec3
  deriving DecidableEq, Repr

/-- The state of an `Experience` at its first render. -/
def Placement.initial (arMode : Bool) : Placement :=
  ⟨arMode, defaultPosition, false, defaultPosition⟩

/-- The effect on `[arMode]` (lines 66-76), as far as the placement goes; the
camera it also moves is no part of this state. -/
def arModeEffect (s : Placement) : Placement :=
  if s.arMode = false then
    { s with avatarPlaced := false, avatarPosition := defaultPosition,
             tempPosition := defaultPosition }
  else s

/-- A newly mounted `Experience`: the first render and its effect. -/
def mountExperience (arMode : Bool) : Placement :=
  arModeEffect (Placement.initial arMode)

/-- The prop `arMode` of a mounted `Experience` takes the value `enabled`: when
this changes the prop, the effect on `[arMode]` runs. -/
def setArMode (s : Placement) (enabled : Bool) : Placement :=
  if s.arMode = enabled then s else arModeEffect { s with arMode := enabled }

/-- The call `setArMode(enabled)` in `App` (App.jsx, lines 69-85): the
`Experience` element stands inside `XR` in AR mode and outside it otherwise, so
a change of `arMode` mounts a new `Experience`. -/
def appSetArMode (s : Placement) (enabled : Bool) : Placement :=
  if s.arMode = enabled then s else mountExperience enabled

/-- The callback of `useHitTest` in `ARHitTest` (lines 45-53) on a hit, `none`
when `hitMatrix` is missing; the component is rendered in AR mode only. -/
def onHitTest (s : Placement) (hit : Option Vec3) : Placement :=
  match hit with
  | some pos =>
    if s.arMode = true ∧ s.avatarPlaced = false then { s with tempPosition := pos } else s
  | none => s

/-- The function `handleTouch` (lines 89-95). -/
def handleTouch (s : Placement) : Placement :=
  if s.arMode = true ∧ s.avatarPlaced = false then
    { s with avatarPosition := s.tempPosition, avatarPlaced := true }
  else s

/-- A tracking sample or a confirmation. -/
inductive AREvent where
  | sample (hit : Option Vec3) : AREvent
  | touch : AREvent

/-- One tracking sample or confirmation. -/
def arStep (s : Placement) : AREvent → Placement
  | .sample hit => onHitTest s hit
  | .touch => handleTouch s

/-- A sequence of tracking samples and confirmations. -/
def arRun (s : Placement) (events : List AREvent) : Placement :=
  events.foldl arStep s

/-- The position of the group that holds the avatar (lines 143-161): in AR mode
the committed position once placed and the tracking position before, and
`[0, 0, 0]` outside AR mode. -/
def renderedPosition (s : Placement) : Vec3 :=
  if s.arMode then
    if s.avatarPlaced then s.avatarPosition else s.tempPosition
  else ⟨0, 0, 0⟩

/-- What can happen to a mounted `Experience`: its prop `arMode` is set, a
tracking sample arrives, the user confirms. -/
inductive PlacementEvent where
  | setArMode (enabled : Bool) : PlacementEvent
  | sample (hit : Option Vec3) : PlacementEvent
  | touch : PlacementEvent

/-- One event on an `Experience` whose prop changes. -/
def placementStep (s : Placement) : PlacementEvent → Placement
  | .setArMode enabled => setArMode s enabled
  | .sample hit => onHitTest s hit
  | .touch => handleTouch s

/-- One event when `App` mounts a new `Experience` on a change of `arMode`. -/
def appPlacementStep (s : Placement) : PlacementEvent → Placement
  | .setArMode enabled => appSetArMode s enabled
  | .sample hit => onHitTest s hit
  | .touch => handleTouch s

/-- A run of an `Experience` whose prop changes. -/
def placementRun (s : Placement) (events : List PlacementEvent) : Placement :=
  events.foldl placementStep s

/-- A run when `App` mounts a new `Experience` on a change of `arMode`. -/
def appPlacementRun (s : Placement) (events : List PlacementEvent) : Placement :=
  events.foldl appPlacementStep s

/-- Outside AR mode the avatar is not placed and both positions are `[0, 0, -1]`. -/
def InactiveDefault (s : Placement) : Prop :=
  s.arMode = false → s = ⟨false, defaultPosition, false, defaultPosition⟩

/-! ## The life of a recording (UI.jsx, lines 106-179) -/

/-- One recording next to the `UI` component: whether the component is mounted,
whether the `MediaRecorder` is recording, whether a `stop` event of the
recorder is queued and not yet dispatched, the values of `mediaRecorder`,
`isRecording` and `audioStream` in the render whose effect (lines 170-179) ran
last, which are the ones its cleanup sees, whether a call of `startRecording`
is suspended at `await getUserMedia` (line 108), and whether `recorder.start()`
(line 151) has been called. -/
structure Recorder where
  ui : UI
  mounted : Bool
  recording : Bool
  stopQueued : Bool
  cleanupRecorder : Bool
  cleanupRecording : Bool
  cleanupStream : Bool
  micRequested : Bool
  started : Bool

/-- A mounted `UI` with no recording and no stream, its effect registered on
these values; no call of `startRecording` has been made. -/
def idleRecorder (ui : UI) : Recorder :=
  ⟨{ ui with isRecording := false, mediaRecorder := false, audioStream := false,
             trackStops := 0 }, true, false, false, false, false, false, false, false⟩

/-- The call `mediaRecorder.stop()`: a recorder that is recording becomes
inactive and its `stop` event is queued; on an inactive recorder the call does
nothing, as the MediaStream Recording specification has it. -/
def Recorder.stop (r : Recorder) : Recorder :=
  if r.recording then { r with recording := false, stopQueued := true } else r

/-- The cleanup of the effect (lines 171-178), on the values of the render that
registered it. -/
def Recorder.cleanup (r : Recorder) : Recorder :=
  let r1 := if r.cleanupRecorder = true ∧ r.cleanupRecording = true then r.stop else r
  if r1.cleanupStream then
    { r1 with ui := { r1.ui with trackStops := r1.ui.trackStops + 1 } }
  else r1

/-- The effect on `[mediaRecorder, isRecording, audioStream]` after a render of
a mounted component: when one of the three has changed, the cleanup of the
former render runs and the effect is registered on the new values. -/
def Recorder.flushEffects (r : Recorder) : Recorder :=
  if r.mounted = true ∧
      (r.cleanupRecorder ≠ r.ui.mediaRecorder ∨ r.cleanupRecording ≠ r.ui.isRecording ∨
        r.cleanupStream ≠ r.ui.audioStream) then
    { r.cleanup with
      cleanupRecorder := r.ui.mediaRecorder
      cleanupRecording := r.ui.isRecording
      cleanupStream := r.ui.audioStream }
  else r

/-- The function `startRecording` (lines 106-159) up to its suspension at
`await navigator.mediaDevices.getUserMedia(...)` (line 108): the microphone is
asked for and the function waits. -/
def startRecordingStart (r : Recorder) : Recorder :=
  { r with micRequested := true }

/-- The function `startRecording` from its resumption (lines 109-158), `granted`
telling whether `getUserMedia` gave a stream. With a stream the recorder is
made and started (line 151), whether or not the component is still mounted:
nothing between lines 108 and 151 looks at it. The three setters (lines
152-154) act on a mounted component only, in one render, after which its effect
runs; on an unmounted component React drops them and no effect is registered.
Without a stream the `catch` block reports that the microphone cannot be
used. -/
def startRecordingFinish (r : Recorder) (granted : Bool) : Recorder :=
  if granted then
    if r.mounted then
      Recorder.flushEffects
        { r with micRequested := false
                 started := true
                 recording := true
                 ui := { r.ui with mediaRecorder := true, audioStream := true,
                                   isRecording := true } }
    else
      { r with micRequested := false, started := true, recording := true }
  else
    { r with micRequested := false
             ui := r.ui.setWorld ((r.ui.world.log "Error accediendo al micrófono:").alert
               "No se pudo acceder al micrófono. Verifica los permisos.") }

/-- The function `startRecording` (lines 106-159) when nothing happens while it
waits for `getUserMedia`. -/
def startRecording (r : Recorder) (granted : Bool) : Recorder :=
  startRecordingFinish (startRecordingStart r) granted

/-- The function `stopRecording` (lines 161-167), followed by the effects of the
render it causes. -/
def stopRecording (r : Recorder) : Recorder :=
  if r.ui.mediaRecorder = true ∧ r.ui.isRecording = true then
    Recorder.flushEffects
      { r.stop with ui := { r.ui with isRecording := false, mediaRecorder := false } }
  else r

/-- What can happen to one recording, from the call of `startRecording` on. -/
inductive RecorderEvent where
  /-- The promise of `getUserMedia` settles, with a stream or without, and the
  suspended `startRecording` resumes. -/
  | getUserMediaSettled (granted : Bool) : RecorderEvent
  /-- The user stops the recording: `stopRecording()`. -/
  | stopRecording : RecorderEvent
  /-- The capture ends by itself, as when the tracks of the stream end. -/
  | captureEnded : RecorderEvent
  /-- The queued `stop` event is dispatched: the handler `recorder.onstop` runs,
  with the `loading` and `message` of the render that started the recording. -/
  | stopEvent (loading : Bool) (message : JSVal) (platformMessage : JSError → String)
      (blob : AudioBlob) (o : FetchOutcome) : RecorderEvent
  /-- The `UI` component is unmounted: the cleanup of its last effect runs. -/
  | unmount : RecorderEvent

/-- One event of the life of a recording. -/
def recorderStep (r : Recorder) : RecorderEvent → Recorder
  | .getUserMediaSettled granted =>
    if r.micRequested then startRecordingFinish r granted else r
  | .stopRecording => if r.mounted then stopRecording r else r
  | .captureEnded => r.stop
  | .stopEvent loading message platformMessage blob o =>
    if r.stopQueued then
      Recorder.flushEffects
        { r with stopQueued := false
                 ui := recorderOnstop loading message platformMessage r.ui blob o }
    else r
  | .unmount => if r.mounted then { r.cleanup with mounted := false } else r

/-- A run of the life of a recording. -/
def recorderRun (r : Recorder) (events : List RecorderEvent) : Recorder :=
  events.foldl recorderStep r

/-- The recording has ended and its handler has run: the recorder was started,
it is inactive and no `stop` event is queued. -/
def Recorder.ended (r : Recorder) : Prop :=
  r.started = true ∧ r.recording = false ∧ r.stopQueued = false

/-! ## Predicates on states -/

/-- The current message is the one the current-message effect computes from the
queue (its head, or `null` on the empty queue), and the effect is not due. -/
def Synced (w : World) : Prop :=
  w.messagesChanged = false ∧ w.message = w.messages.headD JSVal.null

/-- At most one call of `chat` is in flight, and one is only while `loading`. -/
def SingleFlight (w : World) : Prop :=
  w.inFlight ≤ 1 ∧ (w.loading = false → w.inFlight = 0)

/-- The list `response.messages || []` of a parsed body, when reading it does not
throw and it is an array. -/
def responseMessages (v : JSVal) : Option (List JSVal) :=
  match v.getProp "messages" with
  | .ok m =>
    match m.or (.arr []) with
    | .arr items => some items
    | _ => none
  | .error _ => none

/-- The outcomes in which the exchange failed: a transport failure, a status that
is not successful, or a malformed response, that is a successful status whose
body is not JSON or gives no array for `response.messages || []`. -/
def FetchOutcome.chatFailed : FetchOutcome → Bool
  | .failed => true
  | .response r =>
    if r.ok then
      match r.body with
      | .invalid => true
      | .json v => (responseMessages v).isNone
    else true

/-- The response of the scenario of the specification: the status 500 with a
body whose `error` is `db down`. -/
def dbDownResponse : Response :=
  ⟨500, "Internal Server Error", .json (.obj [("error", .str "db down")])⟩

/-- Whether the request came back with a successful status: the promise of
`fetch` resolved and `response.ok` holds. -/
def FetchOutcome.succeeded : FetchOutcome → Bool
  | .failed => false
  | .response r => r.ok

/-- A successful chat response that brings no message and a history of two
entries. -/
def twoEntryHistoryResponse : Response :=
  ⟨200, "OK", .json (.obj [("messages", .arr []), ("history", .arr [.str "q", .str "a"])])⟩

/-- Once the recorder has been started, the stream of the recording is still to
be released by the handler of a recorder that is recording or whose `stop`
event is queued, or its tracks have been stopped at least once. -/
def Recorder.Released (r : Recorder) : Prop :=
  r.started = true → r.recording = true ∨ r.stopQueued = true ∨ 1 ≤ r.ui.trackStops

/-- A readable recording of 1024 bytes. -/
def sampleBlob : AudioBlob :=
  ⟨1024, .loaded "data:audio/webm;base64,AAAA"⟩

/-- A mounted user interface with an empty text field, after a recording was
started. -/
def sampleUI : UI :=
  ⟨mounted "s1", some "", false, false, true, 0⟩

/-- A mounted component with one message queued and playing and a history of
one entry. -/
def playingWorld : World :=
  { (mounted "s1").setConversationHistory (.arr [.str "old"]) with
    messages := [.str "m0"]
    message := .str "m0" }

/-- The sample interface with a call of `startRecording` waiting for the
microphone. -/
def requestedRecorder : Recorder :=
  startRecordingStart (idleRecorder sampleUI)

/-- The dispatch of the `stop` event with a recording whose transcription request
fails in transport. -/
def sampleStopEvent : RecorderEvent :=
  .stopEvent false .null (fun _ => "Failed to fetch") sampleBlob .failed

/-! ## Basic facts -/

theorem chatStart_loading (w : World) (message : String) :
    (chatStart w message).loading = true := rfl

theorem chatStart_inFlight (w : World) (message : String) :
    (chatStart w message).inFlight = w.inFlight + 1 := rfl

theorem sendMessage_blocked (loading : Bool) (message : JSVal) (w : World) (text : String)
    (h : loading = true ∨ message.truthy = true) : sendMessage loading message w text = w := by
  rcases h with h | h <;> simp [sendMessage, h]

theorem handleSend_blocked (w : World) (text : String)
    (h : w.loading = true ∨ w.message.truthy = true) : handleSend w text = w := by
  unfold handleSend
  split
  · exact sendMessage_blocked w.loading w.message w text h
  · rfl

theorem foldl_handleSend_blocked (w : World) (texts : List String)
    (h : w.loading = true ∨ w.message.truthy = true) : texts.foldl handleSend w = w := by
  induction texts with
  | nil => rfl
  | cons t ts ih => rw [List.foldl_cons, handleSend_blocked w t h, ih]

/-! ## Submissions while one is pending -/

/-- C1, as the code has it: `sendMessage` tests the `loading` and `message` of the
render that created it. When that render has a submission pending (`loading`)
or a truthy current message, its `sendMessage(text)` changes nothing at all,
whatever the current state is: no request is handed to `fetch`, and `loading`,
the queue and the history mirror are what they were. So the submissions that
the current render makes through `handleSend` in such a state leave it as it
is, and after a submission has been dispatched by `chat` the submissions of the
renders that follow dispatch nothing. -/
theorem sendMessage_noop_when_render_blocked (w : World)
    (h : w.loading = true ∨ w.message.truthy = true) :
    (∀ (current : World) (text : String),
      sendMessage w.loading w.message current text = current) ∧
    (∀ text : String, handleSend w text = w) ∧
    (∀ texts : List String, texts.foldl handleSend w = w) ∧
    (∀ (w0 : World) (first : String) (rest : List String),
      rest.foldl handleSend (chatStart w0 first) = chatStart w0 first) :=
  ⟨fun current text => sendMessage_blocked w.loading w.message current text h,
   fun text => handleSend_blocked w text h,
   fun texts => foldl_handleSend_blocked w texts h,
   fun w0 first rest =>
     foldl_handleSend_blocked (chatStart w0 first) rest (Or.inl (chatStart_loading w0 first))⟩

/-- Witness of C1 as amended: while the request for "hola" is pending, "otra" and
then "mas" are not dispatched; and while a message is playing, "hola" is not
dispatched. -/
theorem sendMessage_noop_when_render_blocked_witness :
    (handleSend (mounted "s1") "hola").loading = true ∧
    (handleSend (mounted "s1") "hola").requests
      = [Request.history "s1", Request.chat "hola" "s1"] ∧
    ["otra", "mas"].foldl handleSend (handleSend (mounted "s1") "hola")
      = handleSend (mounted "s1") "hola" ∧
    handleSend ({ mounted "s1" with message := .obj [("text", .str "Hola, soy Emma")] }) "hola"
      = { mounted "s1" with message := .obj [("text", .str "Hola, soy Emma")] } :=
  ⟨rfl, rfl,
   (sendMessage_noop_when_render_blocked (handleSend (mounted "s1") "hola") (Or.inl rfl)).2.2.1
     ["otra", "mas"],
   (sendMessage_noop_when_render_blocked
     ({ mounted "s1" with message := .obj [("text", .str "Hola, soy Emma")] })
     (Or.inr rfl)).2.1 "hola"⟩

/-- Counterexample to C1 as stated. While the request for "a" is pending and
`loading` is true, the handler of a recorder started before it calls the
`sendMessage` of its own render, which saw `loading` false: the transcript "b"
is dispatched and two requests are in flight. And a current message that is
not none but falsy, as the number 0 a response can put in the queue, does not
stop a submission. -/
theorem sendMessage_dispatches_while_pending :
    (handleSend (mounted "s1") "a").loading = true ∧
    (sendMessage false .null (handleSend (mounted "s1") "a") "b").requests
      = [Request.history "s1", Request.chat "a" "s1", Request.chat "b" "s1"] ∧
    (recorderOnstop false .null (fun _ => "Failed to fetch")
      ⟨handleSend (mounted "s1") "a", some "", true, true, true, 0⟩ sampleBlob
      (.response ⟨200, "OK", .json (.obj [("text", .str "b")])⟩)).world.inFlight = 2 ∧
    (run (mounted "s1") [.sendMessage "a",
      .chatSettled (.response ⟨200, "OK", .json (.obj [("messages", .arr [.num 0])])⟩)]).message
        = .num 0 ∧
    (run (mounted "s1") [.sendMessage "a",
      .chatSettled (.response ⟨200, "OK", .json (.obj [("messages", .arr [.num 0])])⟩),
      .sendMessage "c"]).requests
        = [Request.history "s1", Request.chat "a" "s1", Request.chat "c" "s1"] :=
  ⟨rfl, rfl, rfl, rfl, rfl⟩

/-! ## What each operation leaves alone -/

theorem flushEffects_loading (w : World) : (flushEffects w).loading = w.loading := by
  unfold flushEffects messageEffect
  split
  · split <;> rfl
  · rfl

theorem flushEffects_inFlight (w : World) : (flushEffects w).inFlight = w.inFlight := by
  unfold flushEffects messageEffect
  split
  · split <;> rfl
  · rfl

theorem flushEffects_messages (w : World) : (flushEffects w).messages = w.messages := by
  unfold flushEffects messageEffect
  split
  · split <;> rfl
  · rfl

theorem flushEffects_synced (w : World) (h : w.messagesChanged = true ∨ Synced w) :
    Synced (flushEffects w) := by
  unfold flushEffects messageEffect Synced
  rcases h with h | h
  · rw [if_pos h]
    dsimp only
    split
    · next m rest hm => simp [World.log, hm]
    · next hm => simp [hm]
  · rw [if_neg (by simp [h.1])]
    exact h

theorem flushEffects_of_unchanged (w : World) (h : w.messagesChanged = false) :
    flushEffects w = w := by
  simp [flushEffects, h]

theorem chatTry_facts (o : FetchOutcome) (w : World) :
    (chatTry o w).1.inFlight = w.inFlight ∧ (chatTry o w).1.message = w.message ∧
    w.messages <+: (chatTry o w).1.messages ∧
    ((chatTry o w).1.messagesChanged = true ∨
      ((chatTry o w).1.messages = w.messages ∧
        (chatTry o w).1.messagesChanged = w.messagesChanged)) := by
  unfold chatTry
  repeat' (first | split | dsimp only [World.alert, World.log, World.setLoading,
    World.setMessages, World.setConversationHistory])
  all_goals simp

theorem chatFinish_loading (w : World) (o : FetchOutcome) :
    (chatFinish w o).1.loading = false := by
  simp [chatFinish, tryCatchFinally, chatFinally, World.setLoading]

theorem chatFinish_facts (w : World) (o : FetchOutcome) :
    (chatFinish w o).1.inFlight = w.inFlight - 1 ∧ (chatFinish w o).1.message = w.message ∧
    w.messages <+: (chatFinish w o).1.messages ∧
    ((chatFinish w o).1.messagesChanged = true ∨
      ((chatFinish w o).1.messages = w.messages ∧
        (chatFinish w o).1.messagesChanged = w.messagesChanged)) := by
  have h := chatTry_facts o w
  unfold chatFinish tryCatchFinally chatFinally chatCatch
  dsimp only [World.alert, World.log, World.setLoading]
  split <;> simp_all

theorem loadHistoryFinish_facts (w : World) (o : FetchOutcome) :
    (loadHistoryFinish w o).1.inFlight = w.inFlight ∧
    (loadHistoryFinish w o).1.loading = w.loading ∧
    (loadHistoryFinish w o).1.message = w.message ∧
    (loadHistoryFinish w o).1.messages = w.messages ∧
    (loadHistoryFinish w o).1.messagesChanged = w.messagesChanged := by
  unfold loadHistoryFinish tryCatch loadHistoryCatch loadHistoryTry
  repeat' (first | split | dsimp only [World.log, World.setConversationHistory])
  all_goals simp_all

theorem loadHistory_facts (w : World) (o : FetchOutcome) :
    (loadHistory w o).1.inFlight = w.inFlight ∧ (loadHistory w o).1.loading = w.loading ∧
    (loadHistory w o).1.message = w.message ∧ (loadHistory w o).1.messages = w.messages ∧
    (loadHistory w o).1.messagesChanged = w.messagesChanged :=
  loadHistoryFinish_facts (loadHistoryStart w) o

theorem onMessagePlayed_facts (w : World) :
    (onMessagePlayed w).inFlight = w.inFlight ∧ (onMessagePlayed w).loading = w.loading ∧
    ((onMessagePlayed w).messagesChanged = true ∨ onMessagePlayed w = w) := by
  unfold onMessagePlayed
  split <;> simp [World.log, World.setMessages]

theorem chatStart_facts (w : World) (text : String) :
    (chatStart w text).message = w.message ∧ (chatStart w text).messages = w.messages ∧
    (chatStart w text).messagesChanged = w.messagesChanged :=
  ⟨rfl, rfl, rfl⟩

theorem initializeAudio_facts (w : World) :
    (initializeAudioOnFirstInteraction w).inFlight = w.inFlight ∧
    (initializeAudioOnFirstInteraction w).message = w.message ∧
    (initializeAudioOnFirstInteraction w).messages = w.messages ∧
    (initializeAudioOnFirstInteraction w).messagesChanged = w.messagesChanged := by
  unfold initializeAudioOnFirstInteraction
  split <;> simp

theorem sendMessage_facts (loading : Bool) (message : JSVal) (w : World) (text : String) :
    (sendMessage loading message w text).message = w.message ∧
    (sendMessage loading message w text).messages = w.messages ∧
    (sendMessage loading message w text).messagesChanged = w.messagesChanged := by
  have h := initializeAudio_facts w
  unfold sendMessage
  split
  · simp [chatStart_facts, h]
  · simp

theorem handleSend_facts (w : World) (text : String) :
    (handleSend w text).message = w.message ∧ (handleSend w text).messages = w.messages ∧
    (handleSend w text).messagesChanged = w.messagesChanged := by
  unfold handleSend
  split
  · exact sendMessage_facts w.loading w.message w text
  · exact ⟨rfl, rfl, rfl⟩

/-! ## Single flight -/

theorem handleSend_singleFlight (w : World) (text : String) (h : SingleFlight w) :
    SingleFlight (handleSend w text) := by
  have ha := initializeAudio_facts w
  unfold handleSend
  split
  · unfold sendMessage
    split
    · next hg =>
      have h0 : w.inFlight = 0 := h.2 hg.1
      constructor
      · rw [chatStart_inFlight, ha.1, h0]
      · intro hl
        rw [chatStart_loading] at hl
        cases hl
    · exact h
  · exact h

theorem step_singleFlight (w : World) (e : Event) (he : e.unguarded = false)
    (h : SingleFlight w) : SingleFlight (step w e) := by
  cases e with
  | sendMessage text =>
    have hs := handleSend_singleFlight w text h
    unfold SingleFlight at *
    simpa only [step, flushEffects_inFlight, flushEffects_loading] using hs
  | recorderSendMessage loading message text => cases he
  | chat text => cases he
  | chatSettled o =>
    have hf := (chatFinish_facts w o).1
    have hl := chatFinish_loading w o
    unfold SingleFlight at *
    simp only [step]
    by_cases h0 : w.inFlight = 0
    · rw [if_pos h0]
      exact h
    · rw [if_neg h0]
      simp only [flushEffects_inFlight, flushEffects_loading, hf]
      omega
  | onMessagePlayed =>
    have hp := onMessagePlayed_facts w
    unfold SingleFlight at *
    simpa only [step, flushEffects_inFlight, flushEffects_loading, hp.1, hp.2.1] using h
  | loadHistory =>
    unfold SingleFlight at *
    simpa only [step, flushEffects_inFlight, flushEffects_loading] using h
  | historySettled o =>
    have hl := loadHistoryFinish_facts w o
    unfold SingleFlight at *
    simp only [step]
    by_cases h0 : w.historyInFlight = 0
    · rw [if_pos h0]
      exact h
    · rw [if_neg h0]
      simpa only [flushEffects_inFlight, flushEffects_loading, hl.1, hl.2.1] using h

theorem run_singleFlight (events : List Event) (w : World)
    (he : ∀ e ∈ events, e.unguarded = false) (h : SingleFlight w) :
    SingleFlight (run w events) := by
  induction events generalizing w with
  | nil => exact h
  | cons e es ih =>
    unfold run
    rw [List.foldl_cons]
    exact ih (step w e) (fun e' he' => he e' (List.mem_cons_of_mem e he'))
      (step_singleFlight w e (he e (List.mem_cons_self e es)) h)

theorem mounted_singleFlight (sessionId : String) : SingleFlight (mounted sessionId) :=
  ⟨Nat.zero_le 1, fun _ => rfl⟩

/-- C2, as the code has it: the provider's `chat` has no guard and hands a request
to `fetch` whenever it is called. The test against a second request is the
`!loading && !message` of `sendMessage` in the user interface, made on the
values of the render that created the function. In every run of a mounted chat
component made of calls of `sendMessage` by the current render, of
`onMessagePlayed`, of `loadHistory` and of the settling of requests, with no
direct call of `chat` and no call of the `sendMessage` of an earlier render, at
most one call of `chat` is in flight at every moment, and none is while
`loading` is false. -/
theorem current_render_single_flight (sessionId : String) (events : List Event)
    (h : ∀ e ∈ events, e.unguarded = false) :
    (run (mounted sessionId) events).inFlight ≤ 1 ∧
    ((run (mounted sessionId) events).loading = false →
      (run (mounted sessionId) events).inFlight = 0) :=
  run_singleFlight events (mounted sessionId) h (mounted_singleFlight sessionId)

/-- Witness of C2 as amended: a second submission while the first is pending, a
played message, a settled request and a third submission leave one call of
`chat` in flight. -/
theorem current_render_single_flight_witness :
    (run (mounted "s1")
      [Event.sendMessage "a", Event.sendMessage "b", Event.onMessagePlayed,
        Event.chatSettled FetchOutcome.failed, Event.sendMessage "c"]).inFlight ≤ 1 :=
  (current_render_single_flight "s1"
    [Event.sendMessage "a", Event.sendMessage "b", Event.onMessagePlayed,
      Event.chatSettled FetchOutcome.failed, Event.sendMessage "c"]
    (by decide)).1

/-- Counterexample to C2 as stated: the provider's `chat`, called while `loading`
is already true, hands a second request to `fetch`, and two calls of `chat` are
in flight. The user interface reaches the same through the `sendMessage` of an
earlier render that `recorder.onstop` calls. -/
theorem chat_dispatches_while_loading :
    (chatStart (mounted "s1") "a").loading = true ∧
    (chatStart (chatStart (mounted "s1") "a") "b").requests
      = [Request.history "s1", Request.chat "a" "s1", Request.chat "b" "s1"] ∧
    (run (mounted "s1") [Event.chat "a", Event.chat "b"]).inFlight = 2 ∧
    (run (mounted "s1")
      [Event.sendMessage "a", Event.recorderSendMessage false .null "b"]).inFlight = 2 :=
  ⟨rfl, rfl, rfl, rfl⟩

/-! ## The branches of `chat` -/

theorem getProp_ok_of_ok (v : JSVal) (k k2 : String) (x : JSVal)
    (h : v.getProp k = .ok x) : ∃ y, v.getProp k2 = .ok y := by
  cases v <;> simp [JSVal.getProp] at h ⊢

theorem chatTry_failed (w : World) : chatTry .failed w = (w, .error .network) := rfl

theorem chatTry_notok_text (w : World) (r : Response) (reason : JSVal) (text : String)
    (hok : r.ok = false) (hr : errorReason (errorData r.body) = .ok reason)
    (ht : reason.toStr = .ok text) :
    chatTry (.response r) w =
      (((w.log "Error del servidor:").alert ("Error: " ++ text)).setLoading false, .ok ()) := by
  unfold chatTry
  simp only [hok, hr, ht]
  rfl

theorem chatTry_notok_throw (w : World) (r : Response) (hok : r.ok = false)
    (h : ∀ reason text, errorReason (errorData r.body) = .ok reason → reason.toStr ≠ .ok text) :
    ∃ e, chatTry (.response r) w = (w.log "Error del servidor:", .error e) := by
  cases hr : errorReason (errorData r.body) with
  | error e =>
    refine ⟨e, ?_⟩
    unfold chatTry
    simp only [hok, hr]
    rfl
  | ok reason =>
    cases ht : reason.toStr with
    | error e =>
      refine ⟨e, ?_⟩
      unfold chatTry
      simp only [hok, hr, ht]
      rfl
    | ok text => exact absurd ht (h reason text hr)

theorem chatTry_ok_unparsable (w : World) (r : Response) (hok : r.ok = true)
    (hbody : r.body = .invalid) : chatTry (.response r) w = (w, .error .syntaxError) := by
  unfold chatTry
  simp only [hok, hbody]
  rfl

theorem chatTry_ok_unreadable (w : World) (r : Response) (v : JSVal) (e : JSError)
    (hok : r.ok = true) (hbody : r.body = .json v) (hm : v.getProp "messages" = .error e) :
    chatTry (.response r) w = (w, .error e) := by
  unfold chatTry
  simp only [hok, hbody, hm]
  rfl

theorem chatTry_ok_array (w : World) (r : Response) (v m history : JSVal) (items : List JSVal)
    (hok : r.ok = true) (hbody : r.body = .json v)
    (hm : v.getProp "messages" = .ok m) (hh : v.getProp "history" = .ok history)
    (hr : m.or (.arr []) = .arr items) :
    chatTry (.response r) w =
      ((if history.truthy then w.setConversationHistory history else w).setMessages
        ((if history.truthy then w.setConversationHistory history else w).messages ++ items),
        .ok ()) := by
  unfold chatTry
  simp only [hok, hbody, hm, hh, hr]
  rfl

theorem chatTry_ok_invalid (w : World) (r : Response) (v m history : JSVal)
    (hok : r.ok = true) (hbody : r.body = .json v)
    (hm : v.getProp "messages" = .ok m) (hh : v.getProp "history" = .ok history)
    (hr : (m.or (.arr [])).isArray = false) :
    chatTry (.response r) w =
      (((if history.truthy then w.setConversationHistory history else w).log
          "La respuesta no contiene un array de mensajes:").alert
        "Error: La respuesta del servidor no es válida", .ok ()) := by
  unfold chatTry
  simp only [hok, hbody, hm, hh]
  generalize m.or (.arr []) = resp at hr
  cases resp <;> first | rfl | cases hr

theorem chatFinish_of_ok (w w1 : World) (o : FetchOutcome) (h : chatTry o w = (w1, .ok ())) :
    chatFinish w o = ({ w1 with loading := false, inFlight := w1.inFlight - 1 }, .ok ()) := by
  unfold chatFinish tryCatchFinally chatFinally
  simp only [h]
  rfl

theorem chatFinish_of_error (w w1 : World) (o : FetchOutcome) (e : JSError)
    (h : chatTry o w = (w1, .error e)) :
    chatFinish w o =
      ({ (w1.log "Error al enviar mensaje:").alert
            "Error al conectar con el servidor. Verifica que el backend esté corriendo." with
          loading := false, inFlight := w1.inFlight - 1 }, .ok ()) := by
  unfold chatFinish tryCatchFinally chatFinally chatCatch
  simp only [h]
  rfl

theorem chatFinish_completes (w : World) (o : FetchOutcome) : (chatFinish w o).2 = .ok () := by
  cases h : chatTry o w with
  | mk w1 r =>
    cases r with
    | ok u => cases u; rw [chatFinish_of_ok w w1 o h]
    | error e => rw [chatFinish_of_error w w1 o e h]

/-! ## The history mirror and the queue after a successful exchange -/

theorem getProp_error_of_error (v : JSVal) (k k2 : String) (e : JSError)
    (h : v.getProp k = .error e) : v.getProp k2 = .error e := by
  cases v <;> simp [JSVal.getProp] at h ⊢ <;> exact h

theorem getProp_ok_of_value (v : JSVal) (k : String) (hn : v ≠ .null) (hu : v ≠ .undefined) :
    ∃ x, v.getProp k = .ok x := by
  cases v <;> simp [JSVal.getProp] at hn hu ⊢

theorem chat_history_of_json (w : World) (message : String) (r : Response)
    (v history : JSVal) (hok : r.ok = true) (hbody : r.body = .json v)
    (hh : v.getProp "history" = .ok history) :
    (chat w message (.response r)).1.conversationHistory
      = if history.truthy then history else w.conversationHistory := by
  obtain ⟨m, hm⟩ := getProp_ok_of_ok v "history" "messages" history hh
  unfold chat
  cases hr : m.or (.arr []) with
  | arr items =>
    rw [chatFinish_of_ok _ _ _ (chatTry_ok_array _ r v m history items hok hbody hm hh hr)]
    by_cases ht : history.truthy = true <;>
      simp [ht, World.setMessages, World.setConversationHistory, chatStart, World.fetch,
        World.setLoading]
  | _ =>
    rw [chatFinish_of_ok _ _ _
      (chatTry_ok_invalid _ r v m history hok hbody hm hh (by rw [hr]; rfl))]
    by_cases ht : history.truthy = true <;>
      simp [ht, World.alert, World.log, World.setConversationHistory, chatStart, World.fetch,
        World.setLoading]

/-- C3, as the code has it: line 56 replaces the mirror under `if
(response.history)`. Whatever the history mirror held before, after a call of
`chat` whose response is successful (`ok`) and whose body is JSON with a truthy
`history` (as every array is, the empty one included), `conversationHistory` is
exactly that history: the prior value is replaced, not merged. When the
successful response carries no history, its `history` being absent or falsy, or
its body being `null` or not JSON, the mirror keeps its prior value. -/
theorem chat_replaces_history (w : World) (message : String) (r : Response)
    (hok : r.ok = true) :
    (∀ v history : JSVal, r.body = .json v → v.getProp "history" = .ok history →
      history.truthy = true →
      (chat w message (.response r)).1.conversationHistory = history) ∧
    (∀ v history : JSVal, r.body = .json v → v.getProp "history" = .ok history →
      history.truthy = false →
      (chat w message (.response r)).1.conversationHistory = w.conversationHistory) ∧
    (∀ (v : JSVal) (e : JSError), r.body = .json v → v.getProp "history" = .error e →
      (chat w message (.response r)).1.conversationHistory = w.conversationHistory) ∧
    (r.body = .invalid →
      (chat w message (.response r)).1.conversationHistory = w.conversationHistory) := by
  refine ⟨?_, ?_, ?_, ?_⟩
  · intro v history hbody hh ht
    rw [chat_history_of_json w message r v history hok hbody hh, ht]
    rfl
  · intro v history hbody hh ht
    rw [chat_history_of_json w message r v history hok hbody hh, ht]
    rfl
  · intro v e hbody hh
    unfold chat
    rw [chatFinish_of_error _ _ _ e (chatTry_ok_unreadable _ r v e hok hbody
      (getProp_error_of_error v "history" "messages" e hh))]
    rfl
  · intro hbody
    unfold chat
    rw [chatFinish_of_error _ _ _ _ (chatTry_ok_unparsable _ r hok hbody)]
    rfl

/-- Witness of C3 as amended: a mirror holding one entry is replaced by the two
entries the server returns. -/
theorem chat_replaces_history_witness :
    (chat ((mounted "s1").setConversationHistory (.arr [.str "old"])) "hola"
      (.response twoEntryHistoryResponse)).1.conversationHistory
        = .arr [.str "q", .str "a"] :=
  (chat_replaces_history ((mounted "s1").setConversationHistory (.arr [.str "old"])) "hola"
    twoEntryHistoryResponse rfl).1 _ _ rfl rfl rfl

/-- Counterexample to C3 as stated: a successful response that brings the message
`m1` and no history leaves the mirror at its prior value, the one entry `old`. -/
theorem chat_keeps_history_without_history :
    (⟨200, "OK", .json (.obj [("messages", .arr [.str "m1"])])⟩ : Response).ok = true ∧
    (chat ((mounted "s1").setConversationHistory (.arr [.str "old"])) "hola"
      (.response ⟨200, "OK", .json (.obj [("messages", .arr [.str "m1"])])⟩)).1.conversationHistory
        = .arr [.str "old"] ∧
    (chat ((mounted "s1").setConversationHistory (.arr [.str "old"])) "hola"
      (.response ⟨200, "OK", .json (.obj [("messages", .arr [.str "m1"])])⟩)).1.messages
        = [.str "m1"] :=
  ⟨rfl, rfl, rfl⟩

/-- C4: after a call of `chat` whose response is successful and whose `messages`
field is the array `items`, the queue is the former queue followed by `items`,
in the order of the server. -/
theorem chat_appends_messages (w : World) (message : String) (r : Response) (v : JSVal)
    (items : List JSVal) (hok : r.ok = true) (hbody : r.body = .json v)
    (hm : v.getProp "messages" = .ok (.arr items)) :
    (chat w message (.response r)).1.messages = w.messages ++ items := by
  obtain ⟨h, hh⟩ := getProp_ok_of_ok v "messages" "history" _ hm
  unfold chat
  rw [chatFinish_of_ok _ _ _ (chatTry_ok_array _ r v _ h items hok hbody hm hh rfl)]
  by_cases ht : h.truthy = true <;>
    simp [ht, World.setMessages, World.setConversationHistory, chatStart, World.fetch,
      World.setLoading]

/-- Witness of C4: two returned messages go behind the one already queued. -/
theorem chat_appends_messages_witness :
    (chat ({ mounted "s1" with messages := [.str "m0"] }) "hola"
      (.response { status := 200, statusText := "OK", body := .json (.obj
        [("messages", .arr [.str "m1", .str "m2"])]) })).1.messages
      = [.str "m0", .str "m1", .str "m2"] :=
  chat_appends_messages _ "hola" _ _ _ rfl rfl rfl

/-! ## The queue and the current message -/

/-- C5: `onMessagePlayed` leaves the queue without its head, the other elements in
their order, and after the render the current message is the new head, or `null`
when nothing remains. On the empty queue it changes nothing: the queue stays
empty, and the current-message effect does not run again, so a current message
that is none stays none. -/
theorem onMessagePlayed_removes_head (w : World) :
    (onMessagePlayed w).messages = w.messages.tail ∧
    (step w Event.onMessagePlayed).messages = w.messages.tail ∧
    (w.messages ≠ [] →
      (step w Event.onMessagePlayed).message = w.messages.tail.headD JSVal.null) ∧
    (w.messages = [] → onMessagePlayed w = w) ∧
    (w.messages = [] → w.messagesChanged = false → step w Event.onMessagePlayed = w) := by
  have hm : (onMessagePlayed w).messages = w.messages.tail := by
    unfold onMessagePlayed
    split
    · next m rest hq => simp [World.setMessages, World.log, hq]
    · next hq => simp [hq]
  have he : w.messages = [] → onMessagePlayed w = w := by
    intro hq
    unfold onMessagePlayed
    simp [hq]
  refine ⟨hm, ?_, ?_, he, ?_⟩
  · simp only [step, flushEffects_messages, hm]
  · intro hne
    have hc : (onMessagePlayed w).messagesChanged = true := by
      unfold onMessagePlayed
      split
      · rfl
      · next hq => exact absurd hq hne
    have hs := (flushEffects_synced (onMessagePlayed w) (Or.inl hc)).2
    rw [flushEffects_messages, hm] at hs
    exact hs
  · intro hq hc
    simp only [step, he hq]
    exact flushEffects_of_unchanged w hc

/-- Witness of C5: from the queue `a, b` the head `a` goes and `b` becomes the
current message; on the empty queue of a mounted component nothing changes. -/
theorem onMessagePlayed_removes_head_witness :
    (step ({ mounted "s1" with messages := [.str "a", .str "b"], message := .str "a" })
        Event.onMessagePlayed).message = .str "b" ∧
    (step ({ mounted "s1" with messages := [.str "a", .str "b"], message := .str "a" })
        Event.onMessagePlayed).messages = [.str "b"] ∧
    step (mounted "s1") Event.onMessagePlayed = mounted "s1" ∧
    (mounted "s1").message = .null :=
  ⟨(onMessagePlayed_removes_head
      ({ mounted "s1" with messages := [.str "a", .str "b"], message := .str "a" })).2.2.1
      (by simp),
   (onMessagePlayed_removes_head
      ({ mounted "s1" with messages := [.str "a", .str "b"], message := .str "a" })).2.1,
   (onMessagePlayed_removes_head (mounted "s1")).2.2.2.2 rfl rfl,
   rfl⟩

theorem step_synced (w : World) (e : Event) (h : Synced w) : Synced (step w e) := by
  cases e with
  | sendMessage text =>
    have hs := handleSend_facts w text
    exact flushEffects_synced _ (Or.inr ⟨by rw [hs.2.2]; exact h.1, by rw [hs.1, hs.2.1]; exact h.2⟩)
  | recorderSendMessage loading message text =>
    have hs := sendMessage_facts loading message w text
    exact flushEffects_synced _ (Or.inr ⟨by rw [hs.2.2]; exact h.1, by rw [hs.1, hs.2.1]; exact h.2⟩)
  | chat text =>
    exact flushEffects_synced _ (Or.inr h)
  | chatSettled o =>
    have hf := chatFinish_facts w o
    simp only [step]
    by_cases h0 : w.inFlight = 0
    · rw [if_pos h0]
      exact h
    · rw [if_neg h0]
      rcases hf.2.2.2 with hc | ⟨hq, hc⟩
      · exact flushEffects_synced _ (Or.inl hc)
      · exact flushEffects_synced _
          (Or.inr ⟨by rw [hc]; exact h.1, by rw [hf.2.1, hq]; exact h.2⟩)
  | onMessagePlayed =>
    rcases (onMessagePlayed_facts w).2.2 with hc | hw
    · exact flushEffects_synced _ (Or.inl hc)
    · simp only [step, hw]
      exact flushEffects_synced _ (Or.inr h)
  | loadHistory =>
    exact flushEffects_synced _ (Or.inr h)
  | historySettled o =>
    have hl := loadHistoryFinish_facts w o
    simp only [step]
    by_cases h0 : w.historyInFlight = 0
    · rw [if_pos h0]
      exact h
    · rw [if_neg h0]
      exact flushEffects_synced _
        (Or.inr ⟨by rw [hl.2.2.2.2]; exact h.1, by rw [hl.2.2.1, hl.2.2.2.1]; exact h.2⟩)

theorem run_synced (events : List Event) (w : World) (h : Synced w) :
    Synced (run w events) := by
  induction events generalizing w with
  | nil => exact h
  | cons e es ih =>
    unfold run
    rw [List.foldl_cons]
    exact ih (step w e) (step_synced w e h)

theorem mounted_synced (sessionId : String) : Synced (mounted sessionId) :=
  flushEffects_synced (initialWorld sessionId) (Or.inl rfl)

/-- C6: in every state a mounted chat component reaches through `sendMessage`
(of the current render or of an earlier one), `chat`, the settling of requests,
`onMessagePlayed` and `loadHistory`, once the effects of the render have run,
the current message is the head of the queue, and `null` when the queue is
empty; the current-message effect is not due. -/
theorem message_is_queue_head (sessionId : String) (events : List Event) :
    (run (mounted sessionId) events).message
      = (run (mounted sessionId) events).messages.headD JSVal.null ∧
    (run (mounted sessionId) events).messagesChanged = false :=
  ⟨(run_synced events _ (mounted_synced sessionId)).2,
   (run_synced events _ (mounted_synced sessionId)).1⟩

/-- C7: `chat`, in each of its outcomes, and `loadHistory` remove nothing from the
queue: the former queue is a prefix of the queue after `chat` and of the queue
after the settling part of `chat` alone, and `loadHistory`, its settling part,
the sending part of `chat`, `handleSend` and the `sendMessage` of any render
leave the queue as it is. Removal is left to `onMessagePlayed`. -/
theorem only_onMessagePlayed_removes (w : World) (message : String) (o : FetchOutcome) :
    w.messages <+: (chat w message o).1.messages ∧
    w.messages <+: (chatFinish w o).1.messages ∧
    (loadHistory w o).1.messages = w.messages ∧
    (loadHistoryFinish w o).1.messages = w.messages ∧
    (chatStart w message).messages = w.messages ∧
    (handleSend w message).messages = w.messages ∧
    (∀ (loading : Bool) (current : JSVal),
      (sendMessage loading current w message).messages = w.messages) :=
  ⟨(chatFinish_facts (chatStart w message) o).2.2.1,
   (chatFinish_facts w o).2.2.1,
   (loadHistory_facts w o).2.2.2.1,
   (loadHistoryFinish_facts w o).2.2.2.1,
   rfl,
   (handleSend_facts w message).2.1,
   fun loading current => (sendMessage_facts loading current w message).2.1⟩

/-! ## Failures of the exchange -/

/-- C8: `chat` sets `loading` before its request is sent, and when the call
completes `loading` is false, whatever the outcome of the request: a transport
failure, a status that is not successful with or without a JSON body, a
successful status with a valid or an invalid `messages` field or with a body
that is not JSON. The same holds of the settling part of `chat` run from any
state. -/
theorem chat_resets_loading (w : World) (message : String) (o : FetchOutcome) :
    (chatStart w message).loading = true ∧
    (chat w message o).1.loading = false ∧
    (chatFinish w o).1.loading = false :=
  ⟨rfl, chatFinish_loading (chatStart w message) o, chatFinish_loading w o⟩

theorem chatTry_notok_cases (w : World) (r : Response) (hok : r.ok = false) :
    (∃ text, chatTry (.response r) w =
      (((w.log "Error del servidor:").alert ("Error: " ++ text)).setLoading false, .ok ())) ∨
    (∃ e, chatTry (.response r) w = (w.log "Error del servidor:", .error e)) := by
  cases hr : errorReason (errorData r.body) with
  | error e =>
    exact Or.inr (chatTry_notok_throw w r hok (fun reason text h => by rw [hr] at h; cases h))
  | ok reason =>
    cases ht : reason.toStr with
    | error e =>
      refine Or.inr (chatTry_notok_throw w r hok (fun reason2 text h => ?_))
      rw [hr] at h
      cases h
      rw [ht]
      exact fun h2 => by cases h2
    | ok text => exact Or.inl ⟨text, chatTry_notok_text w r reason text hok hr ht⟩

theorem chatFinish_alerts (w : World) (o : FetchOutcome) :
    (o.chatFailed = true → ∃ text, (chatFinish w o).1.alerts = w.alerts ++ [text]) ∧
    (o.chatFailed = false → (chatFinish w o).1.alerts = w.alerts) := by
  cases o with
  | failed =>
    refine ⟨fun _ => ?_, fun h => by cases h⟩
    exact ⟨_, by rw [chatFinish_of_error w w _ _ (chatTry_failed w)]; rfl⟩
  | response r =>
    cases hok : r.ok with
    | false =>
      refine ⟨fun _ => ?_, fun h => by simp [FetchOutcome.chatFailed, hok] at h⟩
      rcases chatTry_notok_cases w r hok with ⟨text, ht⟩ | ⟨e, he⟩
      · exact ⟨_, by rw [chatFinish_of_ok w _ _ ht]; rfl⟩
      · exact ⟨_, by rw [chatFinish_of_error w _ _ e he]; rfl⟩
    | true =>
      cases hbody : r.body with
      | invalid =>
        refine ⟨fun _ => ?_, fun h => by simp [FetchOutcome.chatFailed, hok, hbody] at h⟩
        exact ⟨_, by
          rw [chatFinish_of_error w w _ _ (chatTry_ok_unparsable w r hok hbody)]; rfl⟩
      | json v =>
        cases hm : v.getProp "messages" with
        | error e =>
          refine ⟨fun _ => ?_, fun h => by
            simp [FetchOutcome.chatFailed, hok, hbody, responseMessages, hm] at h⟩
          exact ⟨_, by
            rw [chatFinish_of_error w w _ _ (chatTry_ok_unreadable w r v e hok hbody hm)]; rfl⟩
        | ok m =>
          obtain ⟨history, hh⟩ := getProp_ok_of_ok v "messages" "history" m hm
          cases hr : m.or (.arr []) with
          | arr items =>
            refine ⟨fun h => by
              simp [FetchOutcome.chatFailed, hok, hbody, responseMessages, hm, hr] at h,
              fun _ => ?_⟩
            rw [chatFinish_of_ok w _ _ (chatTry_ok_array w r v m history items hok hbody hm hh hr)]
            by_cases ht : history.truthy = true <;>
              simp [ht, World.setMessages, World.setConversationHistory]
          | _ =>
            refine ⟨fun _ => ?_, fun h => by
              simp [FetchOutcome.chatFailed, hok, hbody, responseMessages, hm, hr] at h⟩
            refine ⟨"Error: La respuesta del servidor no es válida", ?_⟩
            rw [chatFinish_of_ok w _ _
              (chatTry_ok_invalid w r v m history hok hbody hm hh (by rw [hr]; rfl))]
            by_cases ht : history.truthy = true <;>
              simp [ht, World.alert, World.log, World.setConversationHistory]

/-- C9: whatever the outcome of the request, the call of `chat` completes
normally, no exception reaches its caller; and when the exchange failed (a
transport failure, a status that is not successful, a malformed response) the
call shows exactly one `alert` to the user, while a successful exchange shows
none. -/
theorem chat_never_throws (w : World) (message : String) (o : FetchOutcome) :
    (chat w message o).2 = .ok () ∧
    (o.chatFailed = true → ∃ text, (chat w message o).1.alerts = w.alerts ++ [text]) ∧
    (o.chatFailed = false → (chat w message o).1.alerts = w.alerts) :=
  ⟨chatFinish_completes (chatStart w message) o,
   (chatFinish_alerts (chatStart w message) o).1,
   (chatFinish_alerts (chatStart w message) o).2⟩

/-- Witness of C9: a transport failure, and a successful status whose body is the
JSON value `null`, each end in one `alert`; a successful status whose body is an
object without `messages` ends in none. -/
theorem chat_never_throws_witness :
    (∃ text, (chat (mounted "s1") "hola" .failed).1.alerts = [] ++ [text]) ∧
    (∃ text, (chat (mounted "s1") "hola" (.response ⟨200, "OK", .json .null⟩)).1.alerts
      = [] ++ [text]) ∧
    (chat (mounted "s1") "hola" (.response ⟨200, "OK", .json (.obj [])⟩)).1.alerts = [] :=
  ⟨(chat_never_throws (mounted "s1") "hola" .failed).2.1 rfl,
   (chat_never_throws (mounted "s1") "hola" (.response ⟨200, "OK", .json .null⟩)).2.1 rfl,
   (chat_never_throws (mounted "s1") "hola" (.response ⟨200, "OK", .json (.obj [])⟩)).2.2 rfl⟩

theorem errorReason_of_text (v : JSVal) (reason : String) (hne : reason ≠ "")
    (h : v.getProp "message" = .ok (.str reason) ∨
      ∃ m, v.getProp "message" = .ok m ∧ m.truthy = false ∧
        v.getProp "error" = .ok (.str reason)) :
    errorReason v = .ok (.str reason) := by
  have ht : (JSVal.str reason).truthy = true := by simp [JSVal.truthy, hne]
  unfold errorReason
  rcases h with h | ⟨m, hm, hf, he⟩
  · simp only [h, ht]
    rfl
  · simp only [hm, hf, he, JSVal.or, ht]
    rfl

/-- C10: when the status is not successful and the body carries a reason given by
the server, a non-empty text in its `message` field or, `message` being absent or
falsy, in its `error` field, the one `alert` that `chat` shows is `Error: `
followed by that reason, and `loading` is false afterwards. -/
theorem chat_reports_server_reason (w : World) (message : String) (r : Response) (v : JSVal)
    (reason : String) (hok : r.ok = false) (hbody : r.body = .json v) (hne : reason ≠ "")
    (h : v.getProp "message" = .ok (.str reason) ∨
      ∃ m, v.getProp "message" = .ok m ∧ m.truthy = false ∧
        v.getProp "error" = .ok (.str reason)) :
    (chat w message (.response r)).1.alerts = w.alerts ++ ["Error: " ++ reason] ∧
    (chat w message (.response r)).1.loading = false := by
  have hr : errorReason (errorData r.body) = .ok (.str reason) := by
    rw [hbody]
    exact errorReason_of_text v reason hne h
  have hs : (JSVal.str reason).toStr = .ok reason := by simp [JSVal.toStr]
  refine ⟨?_, chatFinish_loading _ _⟩
  unfold chat
  rw [chatFinish_of_ok _ _ _ (chatTry_notok_text _ r _ reason hok hr hs)]
  rfl

/-- Witness of C10: the status 500 with the body whose `error` is `db down` is
reported as `Error: db down`. -/
theorem chat_reports_server_reason_witness :
    (chat (mounted "s1") "hola" (.response dbDownResponse)).1.alerts = ["Error: db down"] ∧
    (chat (mounted "s1") "hola" (.response dbDownResponse)).1.loading = false :=
  chat_reports_server_reason (mounted "s1") "hola" dbDownResponse
    (.obj [("error", .str "db down")]) "db down" rfl rfl (by decide)
    (Or.inr ⟨.undefined, rfl, rfl, rfl⟩)

/-! ## `loadHistory` -/

theorem loadHistoryFinish_completes (w : World) (o : FetchOutcome) :
    (loadHistoryFinish w o).2 = .ok () := by
  unfold loadHistoryFinish tryCatch loadHistoryCatch loadHistoryTry
  repeat' (first | split | dsimp only [World.log, World.setConversationHistory])

theorem loadHistory_of_json (w : World) (r : Response) (v history : JSVal)
    (hok : r.ok = true) (hbody : r.body = .json v)
    (hh : v.getProp "history" = .ok history) :
    (loadHistory w (.response r)).1.conversationHistory = history.or (.arr []) := by
  unfold loadHistory loadHistoryFinish tryCatch loadHistoryTry loadHistoryStart
  simp only [hok, hbody, hh]
  simp [World.setConversationHistory, World.fetch]

theorem loadHistory_of_unreadable (w : World) (r : Response) (hok : r.ok = true)
    (h : r.body = .invalid ∨ ∃ v e, r.body = .json v ∧ v.getProp "history" = .error e) :
    (loadHistory w (.response r)).1.conversationHistory = w.conversationHistory := by
  unfold loadHistory loadHistoryFinish tryCatch loadHistoryTry loadHistoryStart
  rcases h with hbody | ⟨v, e, hbody, hh⟩
  · simp only [hok, hbody]
    simp [World.fetch, loadHistoryCatch, World.log]
  · simp only [hok, hbody, hh]
    simp [World.fetch, loadHistoryCatch, World.log]

/-- C11, as the code has it: after a call of `loadHistory` whose response is
successful and whose body is a JSON value other than `null`, the history mirror
is `data.history || []`: the history of the body when it is one (every array is
truthy, the empty one included), and the empty array when the body carries
none. When the body of the successful response is `null` or not JSON, reading
it throws, the `catch` block logs, and the mirror keeps its prior value. In
every case the queue, the current message and `loading` are what they were,
and the call completes normally. -/
theorem loadHistory_replaces_history (w : World) (r : Response) (hok : r.ok = true) :
    (∀ v : JSVal, r.body = .json v → v ≠ .null → v ≠ .undefined →
      ∃ history, v.getProp "history" = .ok history ∧
        (loadHistory w (.response r)).1.conversationHistory = history.or (.arr []) ∧
        (∀ items, history = .arr items →
          (loadHistory w (.response r)).1.conversationHistory = .arr items) ∧
        (history = .undefined →
          (loadHistory w (.response r)).1.conversationHistory = .arr [])) ∧
    (r.body = .json .null →
      (loadHistory w (.response r)).1.conversationHistory = w.conversationHistory) ∧
    (r.body = .invalid →
      (loadHistory w (.response r)).1.conversationHistory = w.conversationHistory) ∧
    (loadHistory w (.response r)).1.messages = w.messages ∧
    (loadHistory w (.response r)).1.message = w.message ∧
    (loadHistory w (.response r)).1.loading = w.loading ∧
    (loadHistory w (.response r)).2 = .ok () := by
  have hf := loadHistory_facts w (.response r)
  refine ⟨?_, ?_, ?_, hf.2.2.2.1, hf.2.2.1, hf.2.1, loadHistoryFinish_completes _ _⟩
  · intro v hbody hn hu
    obtain ⟨history, hh⟩ := getProp_ok_of_value v "history" hn hu
    have hc := loadHistory_of_json w r v history hok hbody hh
    refine ⟨history, hh, hc, ?_, ?_⟩
    · intro items hi
      rw [hc, hi]
      rfl
    · intro hund
      rw [hc, hund]
      rfl
  · intro hbody
    exact loadHistory_of_unreadable w r hok (Or.inr ⟨.null, .typeError, hbody, rfl⟩)
  · intro hbody
    exact loadHistory_of_unreadable w r hok (Or.inl hbody)

/-- Witness of C11 as amended: a body without `history` empties a mirror of one
entry. -/
theorem loadHistory_replaces_history_witness :
    ∃ history, (JSVal.obj []).getProp "history" = .ok history ∧
      (loadHistory ((mounted "s1").setConversationHistory (.arr [.str "old"]))
        (.response ⟨200, "OK", .json (.obj [])⟩)).1.conversationHistory
          = history.or (.arr []) ∧
      (∀ items, history = .arr items →
        (loadHistory ((mounted "s1").setConversationHistory (.arr [.str "old"]))
          (.response ⟨200, "OK", .json (.obj [])⟩)).1.conversationHistory = .arr items) ∧
      (history = .undefined →
        (loadHistory ((mounted "s1").setConversationHistory (.arr [.str "old"]))
          (.response ⟨200, "OK", .json (.obj [])⟩)).1.conversationHistory = .arr []) :=
  (loadHistory_replaces_history ((mounted "s1").setConversationHistory (.arr [.str "old"]))
    ⟨200, "OK", .json (.obj [])⟩ rfl).1 (.obj []) rfl (by simp) (by simp)

/-- Counterexample to C11 as stated: a successful response whose body is the JSON
value `null`, or is not JSON, carries no history, and the mirror is not the
empty sequence after it: it keeps the one entry `old`. -/
theorem loadHistory_keeps_history_on_null_body :
    (⟨200, "OK", .json .null⟩ : Response).ok = true ∧
    (loadHistory ((mounted "s1").setConversationHistory (.arr [.str "old"]))
      (.response ⟨200, "OK", .json .null⟩)).1.conversationHistory = .arr [.str "old"] ∧
    (loadHistory ((mounted "s1").setConversationHistory (.arr [.str "old"]))
      (.response ⟨200, "OK", .invalid⟩)).1.conversationHistory = .arr [.str "old"] :=
  ⟨rfl, rfl, rfl⟩

/-- C12, as the code has it: when the history request fails (a transport failure
or a status that is not successful) the call of `loadHistory` completes normally
and leaves the history mirror as it was; it does not empty it. The mirror is
then the empty array exactly when it was before the call, as it is at the first
render. -/
theorem loadHistory_failure_keeps_history (w : World) (o : FetchOutcome)
    (h : o.succeeded = false) :
    (loadHistory w o).2 = .ok () ∧
    (loadHistory w o).1.conversationHistory = w.conversationHistory ∧
    (loadHistoryFinish w o).2 = .ok () ∧
    (loadHistoryFinish w o).1.conversationHistory = w.conversationHistory := by
  cases o with
  | failed => exact ⟨rfl, rfl, rfl, rfl⟩
  | response r =>
    have hok : r.ok = false := h
    unfold loadHistory loadHistoryFinish tryCatch loadHistoryTry loadHistoryStart
    simp only [hok]
    simp [World.fetch]

/-- Witness of C12 as amended: at the first render the mirror is empty, and the
failed request of the mount leaves it empty. -/
theorem loadHistory_failure_keeps_history_witness :
    (loadHistoryFinish (mounted "s1") .failed).2 = .ok () ∧
    (loadHistoryFinish (mounted "s1") .failed).1.conversationHistory = .arr [] :=
  ⟨(loadHistory_failure_keeps_history (mounted "s1") .failed rfl).2.2.1,
   (loadHistory_failure_keeps_history (mounted "s1") .failed rfl).2.2.2⟩

/-- Counterexample to C12 as stated: a chat exchange completes while the history
request of the mount is still in flight, and that request then fails; the mirror
keeps the two entries of the exchange, it is not the empty sequence. The same
holds of a later call of `loadHistory` that fails. -/
theorem loadHistory_failure_not_empty :
    (run (mounted "s1") [Event.sendMessage "hola",
      Event.chatSettled (.response twoEntryHistoryResponse),
      Event.historySettled .failed]).conversationHistory ≠ .arr [] ∧
    (loadHistory ({ mounted "s1" with conversationHistory := .arr [.str "q", .str "a"] })
      (.response ⟨500, "Internal Server Error", .invalid⟩)).1.conversationHistory ≠ .arr [] := by
  constructor
  · show JSVal.arr [.str "q", .str "a"] ≠ .arr []
    simp
  · show JSVal.arr [.str "q", .str "a"] ≠ .arr []
    simp

/-! ## The session identifier -/

theorem newSessionId_ne_empty (now : Nat) (suffix : String) : newSessionId now suffix ≠ "" := by
  intro h
  have hl := congrArg String.length h
  unfold newSessionId at hl
  simp [String.length_append] at hl
  exact absurd hl.1.1.1 (by decide)

theorem findEntry_putEntry (key value : String) (entries : List (String × String)) :
    findEntry key (putEntry key value entries) = some value := by
  induction entries with
  | nil => simp [putEntry, findEntry]
  | cons e rest ih =>
    obtain ⟨k, v⟩ := e
    by_cases hk : k = key
    · simp [putEntry, findEntry, hk]
    · simp [putEntry, findEntry, hk, ih]

theorem sessionIdInit_of_stored (s : Storage) (now : Nat) (suffix stored : String)
    (hr : s.readable = true) (hs : findEntry "chatSessionId" s.entries = some stored)
    (hne : stored ≠ "") : sessionIdInit s now suffix = .ok (stored, s) := by
  simp [sessionIdInit, Storage.getItem, hr, hs, hne]

/-- C13: on a working storage with no entry under `chatSessionId`, the initialiser
returns the identifier made from the timestamp and the random suffix and leaves
it stored under `chatSessionId`; run again on that storage, with whatever other
timestamp and suffix, it returns the same identifier and leaves the storage as
it is. -/
theorem sessionIdInit_creates_then_reuses (s : Storage) (now now2 : Nat)
    (suffix suffix2 : String) (hr : s.readable = true) (hw : s.writable = true)
    (hnone : findEntry "chatSessionId" s.entries = none) :
    ∃ s1 : Storage,
      sessionIdInit s now suffix = .ok (newSessionId now suffix, s1) ∧
      s1.getItem "chatSessionId" = .ok (some (newSessionId now suffix)) ∧
      sessionIdInit s1 now2 suffix2 = .ok (newSessionId now suffix, s1) := by
  refine ⟨{ s with entries := putEntry "chatSessionId" (newSessionId now suffix) s.entries },
    ?_, ?_, ?_⟩
  · simp [sessionIdInit, createSessionId, Storage.getItem, Storage.setItem, hr, hw, hnone]
  · simp [Storage.getItem, hr, findEntry_putEntry]
  · exact sessionIdInit_of_stored _ now2 suffix2 _ hr (findEntry_putEntry _ _ _)
      (newSessionId_ne_empty now suffix)

/-- Witness of C13: an empty storage, a first run at the timestamp 1700000000000
and a second run one minute later. -/
theorem sessionIdInit_creates_then_reuses_witness :
    ∃ s1 : Storage,
      sessionIdInit ⟨[], true, true⟩ 1700000000000 "k3j9x0q1z"
        = .ok ("session_1700000000000_k3j9x0q1z", s1) ∧
      s1.getItem "chatSessionId" = .ok (some "session_1700000000000_k3j9x0q1z") ∧
      sessionIdInit s1 1700000060000 "zzzzzzzzz"
        = .ok ("session_1700000000000_k3j9x0q1z", s1) :=
  sessionIdInit_creates_then_reuses ⟨[], true, true⟩ 1700000000000 1700000060000
    "k3j9x0q1z" "zzzzzzzzz" rfl rfl rfl

/-- C14, as the code has it: on a readable storage, a text that is not empty and
is stored under `chatSessionId` is returned as it is, and the storage is left as
it is, whatever the timestamp and the suffix. -/
theorem sessionIdInit_keeps_stored (s : Storage) (now : Nat) (suffix stored : String)
    (hr : s.readable = true) (hs : findEntry "chatSessionId" s.entries = some stored)
    (hne : stored ≠ "") : sessionIdInit s now suffix = .ok (stored, s) :=
  sessionIdInit_of_stored s now suffix stored hr hs hne

/-- Witness of C14 as amended: a stored identifier is returned, and nothing is
written, even on a storage that refuses writes. -/
theorem sessionIdInit_keeps_stored_witness :
    sessionIdInit ⟨[("theme", "dark"), ("chatSessionId", "session_1_abc")], true, false⟩
        1700000000000 "k3j9x0q1z"
      = .ok ("session_1_abc",
          ⟨[("theme", "dark"), ("chatSessionId", "session_1_abc")], true, false⟩) :=
  sessionIdInit_keeps_stored _ 1700000000000 "k3j9x0q1z" "session_1_abc" rfl rfl (by decide)

/-- Counterexample to C14 as stated: the empty text is a text that can be stored
under `chatSessionId`; it fails the test `if (stored)`, so the initialiser makes
a new identifier, returns it and writes it over the stored value. -/
theorem sessionIdInit_overwrites_empty :
    sessionIdInit ⟨[("chatSessionId", "")], true, true⟩ 1700000000000 "k3j9x0q1z"
      = .ok ("session_1700000000000_k3j9x0q1z",
          ⟨[("chatSessionId", "session_1700000000000_k3j9x0q1z")], true, true⟩) ∧
    sessionIdInit ⟨[("chatSessionId", "")], true, true⟩ 1700000000000 "k3j9x0q1z"
      ≠ .ok ("", ⟨[("chatSessionId", "")], true, true⟩) := by
  have h : sessionIdInit ⟨[("chatSessionId", "")], true, true⟩ 1700000000000 "k3j9x0q1z"
      = .ok ("session_1700000000000_k3j9x0q1z",
          ⟨[("chatSessionId", "session_1700000000000_k3j9x0q1z")], true, true⟩) := rfl
  refine ⟨h, ?_⟩
  rw [h]
  intro h2
  injection h2 with h3
  injection h3 with h4 _
  exact absurd h4 (by decide)

/-- C15, as the code has it: the initialiser has no `try` around its use of the
storage. When reading raises, the initialiser raises that exception and returns
no identifier; when reading works, nothing usable is stored and writing raises,
it raises the exception of the write and the identifier it made is lost. -/
theorem sessionIdInit_raises_without_storage (s : Storage) (now : Nat) (suffix : String) :
    (s.readable = false → sessionIdInit s now suffix = .error .security) ∧
    (s.readable = true → s.writable = false →
      (findEntry "chatSessionId" s.entries = none ∨
        findEntry "chatSessionId" s.entries = some "") →
      sessionIdInit s now suffix = .error .quotaExceeded) := by
  constructor
  · intro hr
    simp [sessionIdInit, Storage.getItem, hr]
  · intro hr hw hs
    rcases hs with hs | hs <;>
      simp [sessionIdInit, createSessionId, Storage.getItem, Storage.setItem, hr, hw, hs]

/-- Witness of C15 as amended: a storage that refuses reads, and an empty one that
refuses writes. -/
theorem sessionIdInit_raises_without_storage_witness :
    sessionIdInit ⟨[], false, false⟩ 1700000000000 "k3j9x0q1z" = .error .security ∧
    sessionIdInit ⟨[], true, false⟩ 1700000000000 "k3j9x0q1z" = .error .quotaExceeded :=
  ⟨(sessionIdInit_raises_without_storage ⟨[], false, false⟩ 1700000000000 "k3j9x0q1z").1 rfl,
   (sessionIdInit_raises_without_storage ⟨[], true, false⟩ 1700000000000 "k3j9x0q1z").2
     rfl rfl (Or.inl rfl)⟩

/-- Counterexample to C15 as stated: on a storage whose reads raise, the
initialiser returns no identifier, fresh or otherwise: it raises. -/
theorem sessionIdInit_raises_on_unreadable :
    sessionIdInit ⟨[], false, true⟩ 1700000000000 "k3j9x0q1z" = .error .security ∧
    ¬ ∃ r, sessionIdInit ⟨[], false, true⟩ 1700000000000 "k3j9x0q1z" = .ok r := by
  refine ⟨rfl, ?_⟩
  rintro ⟨r, hr⟩
  cases hr

/-! ## The backend address -/

/-- C16: `getBackendUrl` resolves the address in this order. An override
`VITE_API_URL` that is set, that is a text that is not empty, is returned
whatever the host name. Without one (not defined, or empty) the production
address is returned when the host name contains `mdtch.mx`, and the local
address when it does not, or when there is no `window`; so the production
address is returned exactly when the host name contains `mdtch.mx`. -/
theorem getBackendUrl_priority (hostname : Option String) :
    (∀ url : String, url ≠ "" → getBackendUrl (some url) hostname = url) ∧
    (∀ (override : Option String) (host : String),
      (override = none ∨ override = some "") →
      (includes host "mdtch.mx" = true →
        getBackendUrl override (some host) = "https://demo-ar-back.mdtch.mx") ∧
      (includes host "mdtch.mx" = false →
        getBackendUrl override (some host) = "http://localhost:3000") ∧
      (getBackendUrl override (some host) = "https://demo-ar-back.mdtch.mx" ↔
        includes host "mdtch.mx" = true)) ∧
    (∀ override : Option String, (override = none ∨ override = some "") →
      getBackendUrl override none = "http://localhost:3000") := by
  refine ⟨fun url hne => by simp [getBackendUrl, hne], ?_, ?_⟩
  · intro override host ho
    have hu : getBackendUrl override (some host) = hostBackendUrl (some host) := by
      rcases ho with ho | ho <;> simp [getBackendUrl, ho]
    rw [hu]
    cases hi : includes host "mdtch.mx" <;> simp [hostBackendUrl, hi]
  · intro override ho
    rcases ho with ho | ho <;> simp [getBackendUrl, hostBackendUrl, ho]

/-- Witness of C16: an override wins on the production host; without it the
production host gets the production address and `localhost` the local one. -/
theorem getBackendUrl_priority_witness :
    getBackendUrl (some "https://staging.example.org") (some "demo-ar.mdtch.mx")
      = "https://staging.example.org" ∧
    getBackendUrl none (some "demo-ar.mdtch.mx") = "https://demo-ar-back.mdtch.mx" ∧
    getBackendUrl none (some "localhost") = "http://localhost:3000" :=
  ⟨(getBackendUrl_priority (some "demo-ar.mdtch.mx")).1 "https://staging.example.org"
      (by decide),
   ((getBackendUrl_priority none).2.1 none "demo-ar.mdtch.mx" (Or.inl rfl)).1 (by decide),
   ((getBackendUrl_priority none).2.1 none "localhost" (Or.inl rfl)).2.1 (by decide)⟩

/-! ## `transcribeAudio` -/

theorem transcribeAudio_of_ok (w w1 : World) (blob : AudioBlob) (o : FetchOutcome) (text : JSVal)
    (h : transcribeTry blob o w = (w1, .ok text)) :
    transcribeAudio w blob o = (w1, .ok text) := by
  simp [transcribeAudio, h]

theorem transcribeAudio_of_error (w w1 : World) (blob : AudioBlob) (o : FetchOutcome)
    (error : Thrown) (h : transcribeTry blob o w = (w1, .error error)) :
    transcribeAudio w blob o = (w1.log "Error transcribiendo audio:", .error error) := by
  simp [transcribeAudio, h]

theorem transcribeTry_notok_throws (w : World) (blob : AudioBlob) (r : Response)
    (hok : r.ok = false) : ∃ w1 error, transcribeTry blob (.response r) w = (w1, .error error) := by
  unfold transcribeTry
  simp only [hok]
  repeat' (first | split | exact ⟨_, _, rfl⟩)
  all_goals simp_all

/-- C17, as the code has it: on a response whose status is not successful,
`transcribeAudio` always throws and returns no transcript. When the body is JSON
and its `error` field is a text that is not empty, the error thrown carries that
text; when the body is a JSON value other than `null` and its `error` field is
absent or falsy, the error carries the text `Error <status>: <statusText>`;
when the body is the JSON value `null`, what is thrown is the `TypeError` of
reading its `error` field; when the body is not JSON, the error carries the
fixed text `Error desconocido`, not one made from the status. -/
theorem transcribeAudio_failure_reason (w : World) (blob : AudioBlob) (result : String)
    (r : Response) (hok : r.ok = false) (hread : blob.read = .loaded result) :
    (∃ error, (transcribeAudio w blob (.response r)).2 = .error error) ∧
    (∀ (v : JSVal) (reason : String), r.body = .json v →
      v.getProp "error" = .ok (.str reason) → reason ≠ "" →
      (transcribeAudio w blob (.response r)).2 = .error (.error reason)) ∧
    (∀ v : JSVal, r.body = .json v → v ≠ .null → v ≠ .undefined →
      ∃ e, v.getProp "error" = .ok e ∧
        (e.truthy = false →
          (transcribeAudio w blob (.response r)).2
            = .error (.error ("Error " ++ toString r.status ++ ": " ++ r.statusText)))) ∧
    (r.body = .json .null →
      (transcribeAudio w blob (.response r)).2 = .error (.native .typeError)) ∧
    (r.body = .invalid →
      (transcribeAudio w blob (.response r)).2 = .error (.error "Error desconocido")) := by
  refine ⟨?_, ?_, ?_, ?_, ?_⟩
  · obtain ⟨w1, error, h⟩ := transcribeTry_notok_throws w blob r hok
    exact ⟨error, by rw [transcribeAudio_of_error w w1 blob _ error h]⟩
  · intro v reason hbody hv hne
    have ht : (JSVal.str reason).truthy = true := by simp [JSVal.truthy, hne]
    have hs : (JSVal.str reason).toStr = .ok reason := by simp [JSVal.toStr]
    have h : transcribeTry blob (.response r) w
        = (((w.log ("Enviando audio para transcripción, tamaño: " ++ toString blob.size
              ++ " bytes")).fetch (.transcribe (base64String result) w.sessionId)).log
            "Error del servidor en transcripción:", .error (.error reason)) := by
      unfold transcribeTry
      simp only [hok, hread, hbody, errorData, hv, ht, hs]
      rfl
    rw [transcribeAudio_of_error w _ blob _ _ h]
  · intro v hbody hn hu
    obtain ⟨e, hv⟩ := getProp_ok_of_value v "error" hn hu
    refine ⟨e, hv, fun hf => ?_⟩
    have h : transcribeTry blob (.response r) w
        = (((w.log ("Enviando audio para transcripción, tamaño: " ++ toString blob.size
              ++ " bytes")).fetch (.transcribe (base64String result) w.sessionId)).log
            "Error del servidor en transcripción:",
            .error (.error ("Error " ++ toString r.status ++ ": " ++ r.statusText))) := by
      unfold transcribeTry
      simp only [hok, hread, hbody, errorData, hv, hf]
      rfl
    rw [transcribeAudio_of_error w _ blob _ _ h]
  · intro hbody
    have h : transcribeTry blob (.response r) w
        = (((w.log ("Enviando audio para transcripción, tamaño: " ++ toString blob.size
              ++ " bytes")).fetch (.transcribe (base64String result) w.sessionId)).log
            "Error del servidor en transcripción:", .error (.native .typeError)) := by
      unfold transcribeTry
      simp only [hok, hread, hbody, errorData, JSVal.getProp]
      rfl
    rw [transcribeAudio_of_error w _ blob _ _ h]
  · intro hbody
    have h : transcribeTry blob (.response r) w
        = (((w.log ("Enviando audio para transcripción, tamaño: " ++ toString blob.size
              ++ " bytes")).fetch (.transcribe (base64String result) w.sessionId)).log
            "Error del servidor en transcripción:", .error (.error "Error desconocido")) := by
      unfold transcribeTry
      simp only [hok, hread, hbody, errorData]
      rfl
    rw [transcribeAudio_of_error w _ blob _ _ h]

/-- Witness of C17 as amended: the status 500 with the `error` text `whisper down`,
and the status 500 with the JSON value `null`. -/
theorem transcribeAudio_failure_reason_witness :
    (transcribeAudio (mounted "s1") sampleBlob (.response
      ⟨500, "Internal Server Error", .json (.obj [("error", .str "whisper down")])⟩)).2
        = .error (.error "whisper down") ∧
    (transcribeAudio (mounted "s1") sampleBlob (.response
      ⟨500, "Internal Server Error", .json .null⟩)).2 = .error (.native .typeError) :=
  ⟨(transcribeAudio_failure_reason (mounted "s1") sampleBlob _
      ⟨500, "Internal Server Error", .json (.obj [("error", .str "whisper down")])⟩
      rfl rfl).2.1 _ "whisper down" rfl rfl (by decide),
   (transcribeAudio_failure_reason (mounted "s1") sampleBlob _
      ⟨500, "Internal Server Error", .json .null⟩ rfl rfl).2.2.2.1 rfl⟩

/-- Counterexample to C17 as stated: the status 502 with a body that is not JSON
supplies no reason, and the error thrown carries `Error desconocido`, which is
not a text made from the status. -/
theorem transcribeAudio_unparsable_failure :
    (transcribeAudio (mounted "s1") sampleBlob (.response ⟨502, "Bad Gateway", .invalid⟩)).2
      = .error (.error "Error desconocido") ∧
    (transcribeAudio (mounted "s1") sampleBlob (.response ⟨502, "Bad Gateway", .invalid⟩)).2
      ≠ .error (.error "Error 502: Bad Gateway") := by
  have h : (transcribeAudio (mounted "s1") sampleBlob
      (.response ⟨502, "Bad Gateway", .invalid⟩)).2 = .error (.error "Error desconocido") := rfl
  refine ⟨h, ?_⟩
  rw [h]
  intro h2
  injection h2 with h3
  injection h3 with h4
  exact absurd h4 (by decide)

theorem transcribeTry_ok (w : World) (blob : AudioBlob) (result : String)
    (r : Response) (v text : JSVal) (hread : blob.read = .loaded result)
    (hok : r.ok = true) (hbody : r.body = .json v) (ht : v.getProp "text" = .ok text) :
    transcribeTry blob (.response r) w
      = (((w.log ("Enviando audio para transcripción, tamaño: " ++ toString blob.size
            ++ " bytes")).fetch (.transcribe (base64String result) w.sessionId)).log
          "Transcripción recibida:", .ok text) := by
  unfold transcribeTry
  simp only [hok, hread, hbody, ht]
  rfl

/-- C18, as the code has it: on a successful response whose body is a JSON value
other than `null`, `transcribeAudio` returns the `text` field of the body as it
is, blank or not; it makes no test of the text, which is left to its caller.
When the body of the successful response is the JSON value `null`, it throws
the `TypeError` of reading its `text` field, and when the body is not JSON, the
error of `response.json()`. -/
theorem transcribeAudio_returns_text (w : World) (blob : AudioBlob) (result : String)
    (r : Response) (hread : blob.read = .loaded result) (hok : r.ok = true) :
    (∀ v text : JSVal, r.body = .json v → v.getProp "text" = .ok text →
      (transcribeAudio w blob (.response r)).2 = .ok text) ∧
    (∀ v : JSVal, r.body = .json v → v ≠ .null → v ≠ .undefined →
      ∃ text, v.getProp "text" = .ok text ∧
        (transcribeAudio w blob (.response r)).2 = .ok text) ∧
    (r.body = .json .null →
      (transcribeAudio w blob (.response r)).2 = .error (.native .typeError)) ∧
    (r.body = .invalid →
      (transcribeAudio w blob (.response r)).2 = .error (.native .syntaxError)) := by
  have h1 : ∀ v text : JSVal, r.body = .json v → v.getProp "text" = .ok text →
      (transcribeAudio w blob (.response r)).2 = .ok text := by
    intro v text hbody ht
    rw [transcribeAudio_of_ok w _ blob _ text
      (transcribeTry_ok w blob result r v text hread hok hbody ht)]
  refine ⟨h1, ?_, ?_, ?_⟩
  · intro v hbody hn hu
    obtain ⟨text, ht⟩ := getProp_ok_of_value v "text" hn hu
    exact ⟨text, ht, h1 v text hbody ht⟩
  · intro hbody
    have h : transcribeTry blob (.response r) w
        = ((w.log ("Enviando audio para transcripción, tamaño: " ++ toString blob.size
              ++ " bytes")).fetch (.transcribe (base64String result) w.sessionId),
            .error (.native .typeError)) := by
      unfold transcribeTry
      simp only [hok, hread, hbody, JSVal.getProp]
      rfl
    rw [transcribeAudio_of_error w _ blob _ _ h]
  · intro hbody
    have h : transcribeTry blob (.response r) w
        = ((w.log ("Enviando audio para transcripción, tamaño: " ++ toString blob.size
              ++ " bytes")).fetch (.transcribe (base64String result) w.sessionId),
            .error (.native .syntaxError)) := by
      unfold transcribeTry
      simp only [hok, hread, hbody]
      rfl
    rw [transcribeAudio_of_error w _ blob _ _ h]

/-- Witness of C18 as amended: the text `hola Emma` is returned. -/
theorem transcribeAudio_returns_text_witness :
    (transcribeAudio (mounted "s1") sampleBlob
      (.response ⟨200, "OK", .json (.obj [("text", .str "hola Emma")])⟩)).2
        = .ok (.str "hola Emma") :=
  (transcribeAudio_returns_text (mounted "s1") sampleBlob _
    ⟨200, "OK", .json (.obj [("text", .str "hola Emma")])⟩ rfl rfl).1 _ _ rfl rfl

/-- Counterexample to C18 as stated: on a successful response whose text is three
spaces, `transcribeAudio` does not fail; it returns the three spaces. -/
theorem transcribeAudio_returns_blank :
    (transcribeAudio (mounted "s1") sampleBlob
      (.response ⟨200, "OK", .json (.obj [("text", .str "   ")])⟩)).2 = .ok (.str "   ") :=
  rfl

/-! ## The handler of the recorder -/

theorem dropWhile_reverse_dropWhile_nil {α : Type} (p : α → Bool) (l : List α) :
    ((l.dropWhile p).reverse.dropWhile p).reverse = [] ↔ l.all p = true := by
  rw [List.reverse_eq_nil_iff, List.dropWhile_eq_nil_iff, List.all_eq_true]
  constructor
  · intro h
    by_cases hn : l.dropWhile p = []
    · exact List.dropWhile_eq_nil_iff.mp hn
    · have h1 := List.head_dropWhile_not p l hn
      have h2 := h ((l.dropWhile p).head hn) (List.mem_reverse.mpr (List.head_mem hn))
      rw [h1] at h2
      cases h2
  · intro h x hx
    have hn : l.dropWhile p = [] := List.dropWhile_eq_nil_iff.mpr h
    rw [hn] at hx
    cases hx

theorem jsTrim_eq_empty_iff (text : String) :
    jsTrim text = "" ↔ text.data.all isJSWhitespace = true := by
  unfold jsTrim
  rw [← dropWhile_reverse_dropWhile_nil]
  constructor
  · intro h
    have := congrArg String.data h
    simpa using this
  · intro h
    rw [h]

theorem onstopTranscribed_blank (loading : Bool) (message : JSVal) (ui : UI) (t : JSVal)
    (h : blankTranscript t = true) :
    onstopTranscribed loading message ui t =
      (ui.setWorld ((ui.world.log "La transcripción está vacía").alert
        "No se pudo transcribir el audio. Intenta hablar más claro o más cerca del micrófono."),
        .ok ()) := by
  cases t with
  | str text =>
    have ht : jsTrim text = "" := (jsTrim_eq_empty_iff text).mpr h
    unfold onstopTranscribed
    by_cases htr : (JSVal.str text).truthy = true <;> simp [htr, ht]
  | undefined => rfl
  | null => rfl
  | bool b =>
    have hb : b = false := by simpa [blankTranscript, JSVal.truthy] using h
    subst hb
    rfl
  | num n =>
    have hn : n = 0 := by simpa [blankTranscript, JSVal.truthy] using h
    subst hn
    rfl
  | arr items => simp [blankTranscript, JSVal.truthy] at h
  | obj fields => simp [blankTranscript, JSVal.truthy] at h

theorem onstopTranscribed_requests (loading : Bool) (message : JSVal) (ui : UI) (t : JSVal)
    (h : (onstopTranscribed loading message ui t).1.world.requests ≠ ui.world.requests) :
    ∃ text, t = .str text ∧ ∃ c ∈ text.data, isJSWhitespace c = false := by
  by_cases hb : blankTranscript t = true
  · rw [onstopTranscribed_blank loading message ui t hb] at h
    exact absurd rfl h
  · cases t with
    | str text =>
      refine ⟨text, rfl, ?_⟩
      have hb2 : ¬ (text.data.all isJSWhitespace = true) := hb
      rw [List.all_eq_true] at hb2
      push_neg at hb2
      obtain ⟨c, hc, hw⟩ := hb2
      exact ⟨c, hc, by simpa using hw⟩
    | undefined => exact absurd rfl hb
    | null => exact absurd rfl hb
    | bool b =>
      cases b
      · exact absurd rfl hb
      · exact absurd rfl h
    | num n =>
      by_cases hn : n = 0
      · subst hn
        exact absurd rfl hb
      · have ht : (JSVal.num n).truthy = true := by simp [JSVal.truthy, hn]
        unfold onstopTranscribed at h
        simp only [ht] at h
        exact absurd rfl h
    | arr items => exact absurd rfl h
    | obj fields => exact absurd rfl h

theorem recorderOnstop_blank (loading : Bool) (message : JSVal)
    (platformMessage : JSError → String) (ui : UI) (blob : AudioBlob) (result : String)
    (r : Response) (v t : JSVal) (hsize : blob.size ≠ 0) (hread : blob.read = .loaded result)
    (hok : r.ok = true) (hbody : r.body = .json v) (ht : v.getProp "text" = .ok t)
    (hb : blankTranscript t = true) :
    (recorderOnstop loading message platformMessage ui blob (.response r)).world =
      ((((((ui.world.log ("Audio grabado, tamaño: " ++ toString blob.size ++ " bytes")).log
        ("Enviando audio para transcripción, tamaño: " ++ toString blob.size ++ " bytes")).fetch
        (.transcribe (base64String result) ui.world.sessionId)).log
        "Transcripción recibida:").log "La transcripción está vacía").alert
        "No se pudo transcribir el audio. Intenta hablar más claro o más cerca del micrófono.") := by
  unfold recorderOnstop
  simp only [hsize, if_false, UI.setWorld]
  rw [transcribeAudio_of_ok _ _ blob _ t (transcribeTry_ok _ blob result r v t hread hok hbody ht)]
  simp only [onstopTranscribed_blank loading message _ t hb]
  rfl

/-- C19: when the transcript is absent, empty or made of white space only, the
handler of the recorder does not call `sendMessage`: it shows the `alert` that
the audio could not be transcribed, and changes nothing else but the console.
So across the whole handler no chat request is sent (only the transcription
request is), and the queue, the history mirror and `loading` are what they
were. And a chat request is sent by the handler only for a transcript that is a
text with a character that is not white space. -/
theorem recorder_blank_transcript_not_sent (loading : Bool) (message : JSVal) (ui : UI)
    (t : JSVal) :
    (blankTranscript t = true →
      onstopTranscribed loading message ui t =
        (ui.setWorld ((ui.world.log "La transcripción está vacía").alert
          "No se pudo transcribir el audio. Intenta hablar más claro o más cerca del micrófono."),
          .ok ())) ∧
    ((onstopTranscribed loading message ui t).1.world.requests ≠ ui.world.requests →
      ∃ text, t = .str text ∧ ∃ c ∈ text.data, isJSWhitespace c = false) ∧
    (∀ (platformMessage : JSError → String) (blob : AudioBlob) (result : String)
      (r : Response) (v : JSVal),
      blob.size ≠ 0 → blob.read = .loaded result → r.ok = true → r.body = .json v →
      v.getProp "text" = .ok t → blankTranscript t = true →
      (recorderOnstop loading message platformMessage ui blob (.response r)).world.requests
        = ui.world.requests ++ [.transcribe (base64String result) ui.world.sessionId] ∧
      (recorderOnstop loading message platformMessage ui blob (.response r)).world.inFlight
        = ui.world.inFlight ∧
      (recorderOnstop loading message platformMessage ui blob (.response r)).world.messages
        = ui.world.messages ∧
      (recorderOnstop loading message platformMessage ui blob
        (.response r)).world.conversationHistory = ui.world.conversationHistory ∧
      (recorderOnstop loading message platformMessage ui blob (.response r)).world.loading
        = ui.world.loading ∧
      (recorderOnstop loading message platformMessage ui blob (.response r)).world.alerts
        = ui.world.alerts ++
          ["No se pudo transcribir el audio. Intenta hablar más claro o más cerca del micrófono."]) := by
  refine ⟨onstopTranscribed_blank loading message ui t,
    onstopTranscribed_requests loading message ui t, ?_⟩
  intro platformMessage blob result r v hsize hread hok hbody ht hb
  rw [recorderOnstop_blank loading message platformMessage ui blob result r v t hsize hread hok
    hbody ht hb]
  simp [World.alert, World.log, World.fetch]

/-- Witness of C19: the transcript of three spaces ends in the `alert` and sends
no chat request; the transcript ` hola ` is sent. -/
theorem recorder_blank_transcript_not_sent_witness :
    (recorderOnstop false .null (fun _ => "Failed to fetch") sampleUI sampleBlob
      (.response ⟨200, "OK", .json (.obj [("text", .str "   ")])⟩)).world.requests
        = [Request.history "s1", Request.transcribe (some "AAAA") "s1"] ∧
    (recorderOnstop false .null (fun _ => "Failed to fetch") sampleUI sampleBlob
      (.response ⟨200, "OK", .json (.obj [("text", .str "   ")])⟩)).world.alerts
        = ["No se pudo transcribir el audio. Intenta hablar más claro o más cerca del micrófono."] ∧
    (recorderOnstop false .null (fun _ => "Failed to fetch") sampleUI sampleBlob
      (.response ⟨200, "OK", .json (.obj [("text", .str " hola ")])⟩)).world.requests
        = [Request.history "s1", Request.transcribe (some "AAAA") "s1",
            Request.chat " hola " "s1"] :=
  ⟨((recorder_blank_transcript_not_sent false .null sampleUI (.str "   ")).2.2
      (fun _ => "Failed to fetch") sampleBlob "data:audio/webm;base64,AAAA"
      ⟨200, "OK", .json (.obj [("text", .str "   ")])⟩ _ (by decide) rfl rfl rfl rfl
      (by decide)).1,
   ((recorder_blank_transcript_not_sent false .null sampleUI (.str "   ")).2.2
      (fun _ => "Failed to fetch") sampleBlob "data:audio/webm;base64,AAAA"
      ⟨200, "OK", .json (.obj [("text", .str "   ")])⟩ _ (by decide) rfl rfl rfl rfl
      (by decide)).2.2.2.2.2,
   rfl⟩

/-! ## The placement of the avatar -/

theorem arStep_arMode (s : Placement) (e : AREvent) : (arStep s e).arMode = s.arMode := by
  cases e with
  | sample hit =>
    cases hit with
    | none => rfl
    | some pos =>
      simp only [arStep, onHitTest]
      split <;> rfl
  | touch =>
    simp only [arStep, handleTouch]
    split <;> rfl

theorem arRun_arMode (events : List AREvent) (s : Placement) :
    (arRun s events).arMode = s.arMode := by
  induction events generalizing s with
  | nil => rfl
  | cons e es ih =>
    unfold arRun
    rw [List.foldl_cons]
    exact (ih (arStep s e)).trans (arStep_arMode s e)

theorem setArMode_true_arMode (s : Placement) : (setArMode s true).arMode = true := by
  unfold setArMode arModeEffect
  cases h : s.arMode <;> simp [h]

theorem appSetArMode_true_arMode (s : Placement) : (appSetArMode s true).arMode = true := by
  unfold appSetArMode
  cases h : s.arMode <;> simp [h, mountExperience, arModeEffect, Placement.initial]

theorem setArMode_false_of_active (s : Placement) (h : s.arMode = true) :
    setArMode s false = ⟨false, defaultPosition, false, defaultPosition⟩ := by
  unfold setArMode arModeEffect
  simp [h]

theorem appSetArMode_false_of_active (s : Placement) (h : s.arMode = true) :
    appSetArMode s false = ⟨false, defaultPosition, false, defaultPosition⟩ := by
  unfold appSetArMode
  simp [h, mountExperience, arModeEffect, Placement.initial]

/-- C20: from any state, after AR mode is enabled, whatever tracking samples and
confirmations follow, disabling AR mode leaves the placement inactive: the
avatar is not placed, and the tracking position and the committed position are
both `[0, 0, -1]`. This holds of the `Experience` whose prop changes, by its
effect on `[arMode]`, and of the `Experience` that `App` mounts anew on the
change. -/
theorem disabling_ar_resets_placement (s : Placement) (events : List AREvent) :
    setArMode (arRun (setArMode s true) events) false
      = ⟨false, defaultPosition, false, defaultPosition⟩ ∧
    appSetArMode (arRun (appSetArMode s true) events) false
      = ⟨false, defaultPosition, false, defaultPosition⟩ :=
  ⟨setArMode_false_of_active _ ((arRun_arMode events _).trans (setArMode_true_arMode s)),
   appSetArMode_false_of_active _
     ((arRun_arMode events _).trans (appSetArMode_true_arMode s))⟩

/-- C21: once the avatar is placed, a tracking sample changes nothing: the
tracking position, the committed position and the placed flag are what they
were, and so is the position the avatar is rendered at. -/
theorem sample_ignored_once_placed (s : Placement) (hit : Option Vec3)
    (h : s.avatarPlaced = true) :
    onHitTest s hit = s ∧
    (onHitTest s hit).tempPosition = s.tempPosition ∧
    (onHitTest s hit).avatarPosition = s.avatarPosition ∧
    (onHitTest s hit).avatarPlaced = s.avatarPlaced ∧
    renderedPosition (onHitTest s hit) = renderedPosition s := by
  have he : onHitTest s hit = s := by
    cases hit with
    | none => rfl
    | some pos => simp [onHitTest, h]
  rw [he]
  exact ⟨rfl, rfl, rfl, rfl, rfl⟩

/-- Witness of C21: the avatar placed at `[1, 0, -2]` stays there when a sample
at `[5, 5, 5]` arrives. -/
theorem sample_ignored_once_placed_witness :
    onHitTest ⟨true, ⟨1, 0, -2⟩, true, ⟨1, 0, -2⟩⟩ (some ⟨5, 5, 5⟩)
      = ⟨true, ⟨1, 0, -2⟩, true, ⟨1, 0, -2⟩⟩ ∧
    renderedPosition (onHitTest ⟨true, ⟨1, 0, -2⟩, true, ⟨1, 0, -2⟩⟩ (some ⟨5, 5, 5⟩))
      = ⟨1, 0, -2⟩ :=
  ⟨(sample_ignored_once_placed ⟨true, ⟨1, 0, -2⟩, true, ⟨1, 0, -2⟩⟩ (some ⟨5, 5, 5⟩) rfl).1,
   (sample_ignored_once_placed ⟨true, ⟨1, 0, -2⟩, true, ⟨1, 0, -2⟩⟩ (some ⟨5, 5, 5⟩)
      rfl).2.2.2.2⟩

/-- C22: `handleTouch` acts while tracking only. In AR mode with the avatar not
placed it places the avatar, the committed position becoming the tracking
position of that moment and the tracking position staying as it is. With the
avatar placed it changes nothing, so the committed position is not written
again; outside AR mode it changes nothing; and a second confirmation after a
first changes nothing. -/
theorem handleTouch_only_while_tracking (s : Placement) :
    (s.arMode = true → s.avatarPlaced = false →
      handleTouch s = ⟨true, s.tempPosition, true, s.tempPosition⟩) ∧
    (s.avatarPlaced = true → handleTouch s = s) ∧
    (s.arMode = false → handleTouch s = s) ∧
    handleTouch (handleTouch s) = handleTouch s := by
  refine ⟨?_, ?_, ?_, ?_⟩
  · intro ha hp
    obtain ⟨a, p, b, t⟩ := s
    simp only at ha hp
    subst ha hp
    rfl
  · intro hp
    simp [handleTouch, hp]
  · intro ha
    simp [handleTouch, ha]
  · unfold handleTouch
    split <;> simp_all

/-- Witness of C22: while tracking at `[1, 0, -2]` the confirmation commits
`[1, 0, -2]`; once placed, and outside AR mode, it changes nothing. -/
theorem handleTouch_only_while_tracking_witness :
    handleTouch ⟨true, defaultPosition, false, ⟨1, 0, -2⟩⟩
      = ⟨true, ⟨1, 0, -2⟩, true, ⟨1, 0, -2⟩⟩ ∧
    handleTouch ⟨true, ⟨1, 0, -2⟩, true, ⟨3, 0, -4⟩⟩ = ⟨true, ⟨1, 0, -2⟩, true, ⟨3, 0, -4⟩⟩ ∧
    handleTouch ⟨false, defaultPosition, false, defaultPosition⟩
      = ⟨false, defaultPosition, false, defaultPosition⟩ :=
  ⟨(handleTouch_only_while_tracking ⟨true, defaultPosition, false, ⟨1, 0, -2⟩⟩).1 rfl rfl,
   (handleTouch_only_while_tracking ⟨true, ⟨1, 0, -2⟩, true, ⟨3, 0, -4⟩⟩).2.1 rfl,
   (handleTouch_only_while_tracking
      ⟨false, defaultPosition, false, defaultPosition⟩).2.2.1 rfl⟩

theorem mountExperience_inactiveDefault (arMode : Bool) :
    InactiveDefault (mountExperience arMode) := by
  intro h
  cases arMode with
  | false => rfl
  | true => cases h

theorem onHitTest_inactiveDefault (s : Placement) (hit : Option Vec3) (h : InactiveDefault s) :
    InactiveDefault (onHitTest s hit) := by
  cases hit with
  | none => exact h
  | some pos =>
    simp only [onHitTest]
    split
    · next hg =>
      intro ha
      rw [hg.1] at ha
      cases ha
    · exact h

theorem handleTouch_inactiveDefault (s : Placement) (h : InactiveDefault s) :
    InactiveDefault (handleTouch s) := by
  unfold handleTouch
  split
  · next hg =>
    intro ha
    rw [hg.1] at ha
    cases ha
  · exact h

theorem setArMode_inactiveDefault (s : Placement) (enabled : Bool) (h : InactiveDefault s) :
    InactiveDefault (setArMode s enabled) := by
  unfold setArMode
  split
  · exact h
  · cases enabled with
    | false =>
      intro _
      simp [arModeEffect]
    | true =>
      intro ha
      simp [arModeEffect] at ha

theorem appSetArMode_inactiveDefault (s : Placement) (enabled : Bool) (h : InactiveDefault s) :
    InactiveDefault (appSetArMode s enabled) := by
  unfold appSetArMode
  split
  · exact h
  · exact mountExperience_inactiveDefault enabled

theorem placementRun_inactiveDefault (events : List PlacementEvent) (s : Placement)
    (h : InactiveDefault s) : InactiveDefault (placementRun s events) := by
  induction events generalizing s with
  | nil => exact h
  | cons e es ih =>
    unfold placementRun
    rw [List.foldl_cons]
    apply ih
    cases e with
    | setArMode enabled => exact setArMode_inactiveDefault s enabled h
    | sample hit => exact onHitTest_inactiveDefault s hit h
    | touch => exact handleTouch_inactiveDefault s h

theorem appPlacementRun_inactiveDefault (events : List PlacementEvent) (s : Placement)
    (h : InactiveDefault s) : InactiveDefault (appPlacementRun s events) := by
  induction events generalizing s with
  | nil => exact h
  | cons e es ih =>
    unfold appPlacementRun
    rw [List.foldl_cons]
    apply ih
    cases e with
    | setArMode enabled => exact appSetArMode_inactiveDefault s enabled h
    | sample hit => exact onHitTest_inactiveDefault s hit h
    | touch => exact handleTouch_inactiveDefault s h

/-- C23: in every inactive state that a mounted `Experience` reaches through
changes of `arMode`, tracking samples and confirmations, the avatar is not
placed and both positions are `[0, 0, -1]`; so enabling AR mode gives the
tracking state, AR active and the avatar not placed, whose tracking position is
`[0, 0, -1]`, whatever happened in earlier AR sessions. This holds of the
`Experience` whose prop changes and of the one that `App` mounts anew. -/
theorem enabling_ar_starts_tracking_at_default (initialMode : Bool)
    (events : List PlacementEvent) :
    ((placementRun (mountExperience initialMode) events).arMode = false →
      setArMode (placementRun (mountExperience initialMode) events) true
        = ⟨true, defaultPosition, false, defaultPosition⟩) ∧
    ((appPlacementRun (mountExperience initialMode) events).arMode = false →
      appSetArMode (appPlacementRun (mountExperience initialMode) events) true
        = ⟨true, defaultPosition, false, defaultPosition⟩) := by
  constructor
  · intro ha
    have h := placementRun_inactiveDefault events _
      (mountExperience_inactiveDefault initialMode) ha
    rw [h]
    rfl
  · intro ha
    have h := appPlacementRun_inactiveDefault events _
      (mountExperience_inactiveDefault initialMode) ha
    rw [h]
    rfl

/-- Witness of C23: after a session in which the avatar was tracked to
`[1, 0, -2]` and placed there, and AR mode was left, enabling AR mode again
starts tracking at `[0, 0, -1]`. -/
theorem enabling_ar_starts_tracking_at_default_witness :
    setArMode (placementRun (mountExperience false)
      [.setArMode true, .sample (some ⟨1, 0, -2⟩), .touch, .setArMode false]) true
        = ⟨true, defaultPosition, false, defaultPosition⟩ ∧
    appSetArMode (appPlacementRun (mountExperience false)
      [.setArMode true, .sample (some ⟨1, 0, -2⟩), .touch, .setArMode false]) true
        = ⟨true, defaultPosition, false, defaultPosition⟩ :=
  ⟨(enabling_ar_starts_tracking_at_default false
      [.setArMode true, .sample (some ⟨1, 0, -2⟩), .touch, .setArMode false]).1 rfl,
   (enabling_ar_starts_tracking_at_default false
      [.setArMode true, .sample (some ⟨1, 0, -2⟩), .touch, .setArMode false]).2 rfl⟩

/-! ## A failed exchange -/

theorem chatFinish_failed_keeps (w : World) (o : FetchOutcome) (h : o.succeeded = false) :
    (chatFinish w o).1.messages = w.messages ∧
    (chatFinish w o).1.message = w.message ∧
    (chatFinish w o).1.conversationHistory = w.conversationHistory ∧
    (chatFinish w o).1.messagesChanged = w.messagesChanged := by
  cases o with
  | failed =>
    rw [chatFinish_of_error w w _ _ (chatTry_failed w)]
    exact ⟨rfl, rfl, rfl, rfl⟩
  | response r =>
    have hok : r.ok = false := h
    rcases chatTry_notok_cases w r hok with ⟨text, ht⟩ | ⟨e, he⟩
    · rw [chatFinish_of_ok w _ _ ht]
      exact ⟨rfl, rfl, rfl, rfl⟩
    · rw [chatFinish_of_error w _ _ e he]
      exact ⟨rfl, rfl, rfl, rfl⟩

/-- C25: when the chat request fails in transport or comes back with a status
that is not successful, the queue, the current message and the history mirror
after `chat` are the ones before it, and the current-message effect is no more
due than before; `loading` is false. The same holds of the settling part of
`chat` run from any state. -/
theorem failed_chat_keeps_state (w : World) (message : String) (o : FetchOutcome)
    (h : o.succeeded = false) :
    (chat w message o).1.messages = w.messages ∧
    (chat w message o).1.message = w.message ∧
    (chat w message o).1.conversationHistory = w.conversationHistory ∧
    (chat w message o).1.messagesChanged = w.messagesChanged ∧
    (chat w message o).1.loading = false ∧
    (chatFinish w o).1.messages = w.messages ∧
    (chatFinish w o).1.message = w.message ∧
    (chatFinish w o).1.conversationHistory = w.conversationHistory :=
  ⟨(chatFinish_failed_keeps (chatStart w message) o h).1,
   (chatFinish_failed_keeps (chatStart w message) o h).2.1,
   (chatFinish_failed_keeps (chatStart w message) o h).2.2.1,
   (chatFinish_failed_keeps (chatStart w message) o h).2.2.2,
   chatFinish_loading (chatStart w message) o,
   (chatFinish_failed_keeps w o h).1,
   (chatFinish_failed_keeps w o h).2.1,
   (chatFinish_failed_keeps w o h).2.2.1⟩

/-- Witness of C25: with one message queued and playing and a history of one
entry, the status 500 leaves all three as they are. -/
theorem failed_chat_keeps_state_witness :
    (chat playingWorld "hola" (.response dbDownResponse)).1.messages = [.str "m0"] ∧
    (chat playingWorld "hola" (.response dbDownResponse)).1.message = .str "m0" ∧
    (chat playingWorld "hola" (.response dbDownResponse)).1.conversationHistory
      = .arr [.str "old"] :=
  ⟨(failed_chat_keeps_state playingWorld "hola" (.response dbDownResponse) rfl).1,
   (failed_chat_keeps_state playingWorld "hola" (.response dbDownResponse) rfl).2.1,
   (failed_chat_keeps_state playingWorld "hola" (.response dbDownResponse) rfl).2.2.1⟩

/-! ## The release of the microphone -/

theorem onstopTranscribed_cells (loading : Bool) (message : JSVal) (ui : UI) (t : JSVal) :
    (onstopTranscribed loading message ui t).1.trackStops = ui.trackStops ∧
    (onstopTranscribed loading message ui t).1.audioStream = ui.audioStream ∧
    (onstopTranscribed loading message ui t).1.isRecording = ui.isRecording ∧
    (onstopTranscribed loading message ui t).1.mediaRecorder = ui.mediaRecorder := by
  unfold onstopTranscribed
  repeat' (first | split | exact ⟨rfl, rfl, rfl, rfl⟩)

theorem recorderOnstop_cells (loading : Bool) (message : JSVal) (pm : JSError → String)
    (ui : UI) (blob : AudioBlob) (o : FetchOutcome) :
    (recorderOnstop loading message pm ui blob o).trackStops = ui.trackStops + 1 ∧
    (recorderOnstop loading message pm ui blob o).audioStream = false ∧
    (recorderOnstop loading message pm ui blob o).isRecording = ui.isRecording ∧
    (recorderOnstop loading message pm ui blob o).mediaRecorder = ui.mediaRecorder := by
  unfold recorderOnstop
  split
  · exact ⟨rfl, rfl, rfl, rfl⟩
  · dsimp only
    split
    · exact ⟨rfl, rfl, rfl, rfl⟩
    · next w2 t _ =>
      have h := onstopTranscribed_cells loading message
        (UI.setWorld { ui with trackStops := ui.trackStops + 1, audioStream := false } w2) t
      split
      · next ui2 heq => rw [heq] at h; exact h
      · next ui2 e heq => rw [heq] at h; exact h

theorem Recorder.stop_released (r : Recorder) (h : r.Released) : r.stop.Released := by
  obtain ⟨ui, m, rec, q, c1, c2, c3, mr, st⟩ := r
  cases rec <;> simp_all [Recorder.Released, Recorder.stop]

theorem Recorder.cleanup_released (r : Recorder) (h : r.Released) : r.cleanup.Released := by
  obtain ⟨ui, m, rec, q, c1, c2, c3, mr, st⟩ := r
  cases rec <;> cases c1 <;> cases c2 <;> cases c3 <;>
    simp_all [Recorder.Released, Recorder.cleanup, Recorder.stop]

theorem Recorder.flushEffects_released (r : Recorder) (h : r.Released) :
    r.flushEffects.Released := by
  have hc := r.cleanup_released h
  unfold Recorder.flushEffects
  split
  · exact hc
  · exact h

theorem startRecordingFinish_released (r : Recorder) (granted : Bool) (h : r.Released) :
    (startRecordingFinish r granted).Released := by
  unfold startRecordingFinish
  split
  · split
    · apply Recorder.flushEffects_released
      intro _
      exact Or.inl rfl
    · intro _
      exact Or.inl rfl
  · exact h

theorem recorderStep_released (r : Recorder) (e : RecorderEvent) (h : r.Released) :
    (recorderStep r e).Released := by
  cases e with
  | getUserMediaSettled granted =>
    simp only [recorderStep]
    split
    · exact startRecordingFinish_released r granted h
    · exact h
  | stopRecording =>
    simp only [recorderStep]
    split
    · unfold stopRecording
      split
      · apply Recorder.flushEffects_released
        have hs := r.stop_released h
        have hu : r.stop.ui = r.ui := by
          unfold Recorder.stop
          split <;> rfl
        unfold Recorder.Released at hs ⊢
        rw [hu] at hs
        exact hs
      · exact h
    · exact h
  | captureEnded => exact r.stop_released h
  | stopEvent loading message pm blob o =>
    simp only [recorderStep]
    split
    · apply Recorder.flushEffects_released
      have hc := (recorderOnstop_cells loading message pm r.ui blob o).1
      intro _
      refine Or.inr (Or.inr ?_)
      show 1 ≤ (recorderOnstop loading message pm r.ui blob o).trackStops
      omega
    · exact h
  | unmount =>
    simp only [recorderStep]
    split
    · exact r.cleanup_released h
    · exact h

theorem recorderRun_released (events : List RecorderEvent) (r : Recorder) (h : r.Released) :
    (recorderRun r events).Released := by
  induction events generalizing r with
  | nil => exact h
  | cons e es ih =>
    unfold recorderRun
    rw [List.foldl_cons]
    exact ih (recorderStep r e) (recorderStep_released r e h)

theorem startRecordingStart_released (ui : UI) :
    (startRecordingStart (idleRecorder ui)).Released := by
  intro h
  cases h

theorem teardown_trackStops (ui : UI) (loading : Bool) (message : JSVal)
    (pm : JSError → String) (blob : AudioBlob) (o : FetchOutcome) :
    (recorderRun (startRecordingStart (idleRecorder ui))
      [.getUserMediaSettled true, .unmount,
        .stopEvent loading message pm blob o]).ui.trackStops = 2 := by
  have h := (recorderOnstop_cells loading message pm
    { ui with isRecording := true, mediaRecorder := true, audioStream := true,
              trackStops := 1 } blob o).1
  simp only [recorderRun, List.foldl_cons, List.foldl_nil, recorderStep, startRecordingStart,
    startRecordingFinish, idleRecorder, Recorder.flushEffects, Recorder.cleanup, Recorder.stop]
  simp only [ne_eq, Bool.false_eq_true, not_false_eq_true, or_self, and_self, if_true,
    and_false, if_false, Nat.zero_add, not_true_eq_false]
  exact h

theorem teardown_ended (ui : UI) (loading : Bool) (message : JSVal)
    (pm : JSError → String) (blob : AudioBlob) (o : FetchOutcome) :
    (recorderRun (startRecordingStart (idleRecorder ui))
      [.getUserMediaSettled true, .unmount,
        .stopEvent loading message pm blob o]).ended := by
  simp only [recorderRun, List.foldl_cons, List.foldl_nil, recorderStep, startRecordingStart,
    startRecordingFinish, idleRecorder, Recorder.flushEffects, Recorder.cleanup, Recorder.stop,
    Recorder.ended]
  simp

/-- C24, as the code has it: the tracks of the stream are stopped in two places,
in `recorder.onstop` on the stream of its closure and in the cleanup of the
effect on `audioStream`. For one call of `startRecording`, in every run of the
settling of `getUserMedia`, explicit stops, ends of the capture, dispatches of
the `stop` event and teardown, in whatever order: once the recording has ended
(the recorder was started, it is inactive and its `stop` event has been
dispatched) the tracks have been stopped at least once; and on the teardown of
a component that is recording the recording ends with the tracks stopped
twice, by the cleanup and by the handler of the `stop` event the cleanup
brings about. -/
theorem recording_released_at_least_once (ui : UI) (events : List RecorderEvent) :
    ((recorderRun (startRecordingStart (idleRecorder ui)) events).ended →
      1 ≤ (recorderRun (startRecordingStart (idleRecorder ui)) events).ui.trackStops) ∧
    (∀ (loading : Bool) (message : JSVal) (pm : JSError → String) (blob : AudioBlob)
      (o : FetchOutcome),
      (recorderRun (startRecordingStart (idleRecorder ui))
        [.getUserMediaSettled true, .unmount,
          .stopEvent loading message pm blob o]).ended ∧
      (recorderRun (startRecordingStart (idleRecorder ui))
        [.getUserMediaSettled true, .unmount,
          .stopEvent loading message pm blob o]).ui.trackStops = 2) := by
  have h := recorderRun_released events _ (startRecordingStart_released ui)
  refine ⟨?_, fun loading message pm blob o =>
    ⟨teardown_ended ui loading message pm blob o,
     teardown_trackStops ui loading message pm blob o⟩⟩
  intro he
  rcases h he.1 with hr | hq | ht
  · rw [he.2.1] at hr
    cases hr
  · rw [he.2.2] at hq
    cases hq
  · exact ht

/-- Witness of C24 as amended: after the microphone is granted, an explicit stop
and the dispatch of the `stop` event, the recording has ended and the tracks
have been stopped. -/
theorem recording_released_at_least_once_witness :
    (recorderRun (startRecordingStart (idleRecorder sampleUI))
      [.getUserMediaSettled true, .stopRecording, sampleStopEvent]).ended ∧
    1 ≤ (recorderRun (startRecordingStart (idleRecorder sampleUI))
      [.getUserMediaSettled true, .stopRecording, sampleStopEvent]).ui.trackStops :=
  ⟨⟨rfl, rfl, rfl⟩,
   (recording_released_at_least_once sampleUI
     [.getUserMediaSettled true, .stopRecording, sampleStopEvent]).1 ⟨rfl, rfl, rfl⟩⟩

/-- Counterexample to C24 as stated: on none of the three ways is the release
performed exactly once. On teardown while recording the tracks are stopped
twice, and so they are when the capture ends by itself; on an explicit stop
they are stopped three times. And on a teardown that comes while
`startRecording` waits for the microphone, the recorder is started afterwards
and neither the teardown nor a later `stopRecording` stops it: it stays
recording with the tracks never stopped. -/
theorem release_not_exactly_once :
    (recorderRun requestedRecorder
      [.getUserMediaSettled true, .unmount, sampleStopEvent]).ui.trackStops = 2 ∧
    (recorderRun requestedRecorder
      [.getUserMediaSettled true, .captureEnded, sampleStopEvent]).ui.trackStops = 2 ∧
    (recorderRun requestedRecorder
      [.getUserMediaSettled true, .stopRecording, sampleStopEvent]).ui.trackStops = 3 ∧
    (recorderRun requestedRecorder
      [.getUserMediaSettled true, .unmount, sampleStopEvent]).ended ∧
    (recorderRun requestedRecorder
      [.getUserMediaSettled true, .captureEnded, sampleStopEvent]).ended ∧
    (recorderRun requestedRecorder
      [.getUserMediaSettled true, .stopRecording, sampleStopEvent]).ended ∧
    (recorderRun requestedRecorder
      [.unmount, .getUserMediaSettled true, .stopRecording, sampleStopEvent]).recording
        = true ∧
    (recorderRun requestedRecorder
      [.unmount, .getUserMediaSettled true, .stopRecording, sampleStopEvent]).ui.trackStops
        = 0 :=
  ⟨rfl, rfl, rfl, ⟨rfl, rfl, rfl⟩, ⟨rfl, rfl, rfl⟩, ⟨rfl, rfl, rfl⟩, rfl, rfl⟩

end EmmaFront
